import Mathlib

/-!
Shallow embedding of the streaming-ingestion core of the wikiextractor
(src/main.py): the tag scanner `tagRE`, the page collector `collect_pages`,
the template collector `load_templates`, the siteinfo header loop and the
template-preprocessing prologue of `process_dump`, and the sentinel-based
shutdown protocol of the extraction pipeline, together with theorems that
settle the specification claims about them.
-/

set_option maxRecDepth 4000

namespace WikiExtractor

/-! ## Python string primitives -/

/-- Python word character as matched by the regex class `\w` (ASCII model):
letters, digits and underscore. -/
def isWordChar (c : Char) : Bool := c.isAlphanum || c == '_'

/-- Python `str.find(c)`: index of the first occurrence of `c`, or `-1`. -/
def pyFind (s : String) (c : Char) : Int :=
  match s.data.findIdx? (fun a => a == c) with
  | some i => (i : Int)
  | none => -1

/-- Index of the last occurrence of `c` in a character list, or `-1`
(the recursion behind Python `str.rfind`). -/
def rfindAux (c : Char) : List Char → Int
  | [] => -1
  | a :: l =>
    let r := rfindAux c l
    if r ≥ 0 then r + 1 else if a = c then 0 else -1

/-- Python `str.rfind(c)`: index of the last occurrence of `c`, or `-1`. -/
def pyRFind (s : String) (c : Char) : Int := rfindAux c s.data

/-- Python slice `s[:k]`: a negative `k` counts from the end of the string
(clamped at 0), so in particular `s[:-1]` drops the final character. -/
def pySliceTo (s : String) (k : Int) : String :=
  if k < 0 then ⟨s.data.take (((s.data.length : Int) + k).toNat)⟩
  else ⟨s.data.take k.toNat⟩

/-- Python `str.startswith`. -/
def py_startswith (s pre : String) : Bool := pre.data.isPrefixOf s.data

/-- Python `'<' in line` membership test on a line. -/
def hasLt (line : String) : Bool := line.data.any (fun c => c == '<')

/-! ## The tag scanner

Model of `tagRE = re.compile(r'(.*?)<(/?\w+)[^>]*>(?:([^<]*)(<.*?>)?)?')`
and of `tagRE.search(line)`.  When the pattern matches, group 3 always
participates (the optional non-capturing group can match the empty string),
so `m.lastindex == 4` holds exactly when group 4 matched. -/

/-- Capture groups of a successful `tagRE.search`. -/
structure TagMatch where
  group1 : String
  group2 : String
  group3 : String
  group4 : Option String
deriving Repr, DecidableEq

/-- Consume the `[^>]*>` part of the tag pattern: drop characters up to the
first `>` and return the remainder after it; fail if no `>` follows. -/
def takeToGt (cs : List Char) : Option (List Char) :=
  match cs.dropWhile (fun c => c != '>') with
  | _ :: rest => some rest
  | [] => none

/-- Match `(/?\w+)[^>]*>` immediately after a `<`: return the group-2 text
and the remainder of the line after the closing `>`. -/
def tagMatchAt (cs : List Char) : Option (List Char × List Char) :=
  match cs with
  | '/' :: rest =>
    let w := rest.takeWhile isWordChar
    if w.isEmpty then none
    else (takeToGt (rest.dropWhile isWordChar)).map (fun r => ('/' :: w, r))
  | _ =>
    let w := cs.takeWhile isWordChar
    if w.isEmpty then none
    else (takeToGt (cs.dropWhile isWordChar)).map (fun r => (w, r))

/-- Match the optional trailing group `(<.*?>)?`: a `<`, then lazily any
characters other than newline up to the first `>`. -/
def group4At (cs : List Char) : Option (List Char) :=
  match cs with
  | '<' :: rest =>
    let mid := rest.takeWhile (fun c => c != '>' && c != '\n')
    match rest.dropWhile (fun c => c != '>' && c != '\n') with
    | '>' :: _ => some ('<' :: (mid ++ ['>']))
    | _ => none
  | _ => none

/-- Scan for the first `<` at which the tag pattern matches; the lazy prefix
`(.*?)` cannot cross a newline, so the accumulated group-1 text resets at
each newline (re.search restarts after it). -/
def tagSearchAux : List Char → List Char → Option TagMatch
  | _, [] => none
  | pre, c :: rest =>
    if c = '<' then
      match tagMatchAt rest with
      | some (tag, after) =>
        some ⟨⟨pre.reverse⟩, ⟨tag⟩, ⟨after.takeWhile (fun c => c != '<')⟩,
              (group4At (after.dropWhile (fun c => c != '<'))).map (fun g => ⟨g⟩)⟩
      | none => tagSearchAux (c :: pre) rest
    else if c = '\n' then tagSearchAux [] rest
    else tagSearchAux (c :: pre) rest

/-- Model of `tagRE.search(line)`. -/
def tagRE_search (line : String) : Option TagMatch := tagSearchAux [] line.data

/-! ## Page Collector (collect_pages, src/main.py lines 219-273) -/

/-- Record yielded by the collect_pages generator: `(id, revid, title, page)`. -/
structure PageRecord where
  id : String
  revid : String
  title : String
  page : List String
deriving Repr, DecidableEq

/-- The module-level globals read by collect_pages: the `acceptedNamespaces`
set imported from the external extract module and the `templateNamespace`
set by the siteinfo header loop. -/
structure CollectCtx where
  acceptedNamespaces : List String
  templateNamespace : String
deriving Repr

/-- Local state of the collect_pages generator.  The local variable `title`
is read in the `/page` branch without being initialized at function entry,
so it is modelled as an `Option`, `none` meaning unassigned. -/
structure CollectState where
  page : List String
  id : String
  revid : String
  last_id : String
  inText : Bool
  redirect : Bool
  title : Option String
deriving Repr, DecidableEq

/-- State of collect_pages at function entry. -/
def collectInit : CollectState := ⟨[], "", "", "", false, false, none⟩

/-- The yield test of collect_pages lines 264-266:
`(colon < 0 or title[:colon] in acceptedNamespaces) and id != last_id and
not redirect and not title.startswith(templateNamespace)`. -/
def yieldCond (ctx : CollectCtx) (st : CollectState) (title : String) : Bool :=
  (decide (pyFind title ':' < 0) ||
    decide (pySliceTo title (pyFind title ':') ∈ ctx.acceptedNamespaces)) &&
  decide (st.id ≠ st.last_id) && !st.redirect &&
  !(py_startswith title ctx.templateNamespace)

/-- One loop iteration of collect_pages on one input line: the next state and
the record yielded by this iteration, if any; the result is `none` when the
iteration raises NameError by reading the never-assigned local `title`. -/
def collect_step (ctx : CollectCtx) (st : CollectState) (line : String) :
    Option (CollectState × Option PageRecord) :=
  if !hasLt line then
    if st.inText then some ({st with page := st.page ++ [line]}, none)
    else some (st, none)
  else
    match tagRE_search line with
    | none => some (st, none)
    | some m =>
      if m.group2 = "page" then some ({st with page := [], redirect := false}, none)
      else if m.group2 = "id" ∧ st.id = "" then some ({st with id := m.group3}, none)
      else if m.group2 = "id" ∧ st.id ≠ "" then some ({st with revid := m.group3}, none)
      else if m.group2 = "title" then some ({st with title := some m.group3}, none)
      else if m.group2 = "redirect" then some ({st with redirect := true}, none)
      else if m.group2 = "text" then
        some ({st with inText := !m.group4.isSome, page := st.page ++ [m.group3]}, none)
      else if m.group2 = "/text" then
        some ({st with
                inText := false,
                page := if m.group1 ≠ "" then st.page ++ [m.group1] else st.page}, none)
      else if st.inText then some ({st with page := st.page ++ [line]}, none)
      else if m.group2 = "/page" then
        match st.title with
        | none => none
        | some title =>
          if yieldCond ctx st title then
            some ({st with
                    id := "", revid := "", page := [], inText := false,
                    redirect := false, last_id := st.id},
                  some ⟨st.id, st.revid, title, st.page⟩)
          else
            some ({st with
                    id := "", revid := "", page := [], inText := false,
                    redirect := false}, none)
      else some (st, none)

/-- Run collect_pages from a given state: the records yielded (in order) and
the final state; the final state is `none` when the generator raised (records
yielded before the raise are still reported). -/
def collect_pages_aux (ctx : CollectCtx) :
    CollectState → List String → List PageRecord × Option CollectState
  | st, [] => ([], some st)
  | st, l :: ls =>
    match collect_step ctx st l with
    | none => ([], none)
    | some (st', out) =>
      let r := collect_pages_aux ctx st' ls
      (out.toList ++ r.1, r.2)

/-- Model of the collect_pages generator over the dump's lines. -/
def collect_pages (ctx : CollectCtx) (lines : List String) :
    List PageRecord × Option CollectState :=
  collect_pages_aux ctx collectInit lines

/-! ## Template Collector (load_templates, src/main.py lines 131-201) -/

/-- State of load_templates, including the globals it mutates
(`templateNamespace`, `Extractor.templatePrefix`, `modulePrefix`), the
template store written through `define_template`, and the sequence of strings
written to the optional mirror output file. -/
structure LoadState where
  page : List String
  inText : Bool
  title : Option String
  templates : Nat
  articles : Nat
  templateNamespace : String
  templatePrefix : String
  modulePrefix : String
  store : List (String × List String)
  output : List String
deriving Repr, DecidableEq

/-- Modelled from the spec: `define_template` is imported from the external
`extract` module, which is not among this repository's sources; the spec
(sections 3 and 4.3) describes the TemplateStore as a mapping populated by
inserting `(title → buffer)` during the collection pass, so it is modelled
as appending the pair to the store. -/
def define_template (store : List (String × List String)) (title : String)
    (page : List String) : List (String × List String) :=
  store ++ [(title, page)]

/-- State of load_templates at function entry (after `modulePrefix =
moduleNamespace + ':'`); `title` is an uninitialized local, as in
collect_pages. -/
def loadInit (templateNamespace templatePrefixInit moduleNamespace : String) : LoadState :=
  ⟨[], false, none, 0, 0, templateNamespace, templatePrefixInit,
   moduleNamespace ++ ":", [], []⟩

/-- One loop iteration of load_templates on one input line; `hasOutput` is
the truthiness of the `output_file` parameter; the result is `none` when the
iteration raises NameError by reading the never-assigned local `title`. -/
def load_step (hasOutput : Bool) (st : LoadState) (line : String) : Option LoadState :=
  if !hasLt line then
    some (if st.inText then {st with page := st.page ++ [line]} else st)
  else
    match tagRE_search line with
    | none => some st
    | some m =>
      if m.group2 = "page" then some {st with page := []}
      else if m.group2 = "title" then
        let st1 := {st with title := some m.group3}
        if ¬hasOutput ∧ st1.templateNamespace = "" then
          let colon := pyFind m.group3 ':'
          if colon > 1 then
            some {st1 with templateNamespace := pySliceTo m.group3 colon,
                           templatePrefix := pySliceTo m.group3 (colon + 1)}
          else some st1
        else some st1
      else if m.group2 = "text" then
        some {st with inText := !m.group4.isSome, page := st.page ++ [m.group3]}
      else if m.group2 = "/text" then
        some {st with
               inText := false,
               page := if m.group1 ≠ "" then st.page ++ [m.group1] else st.page}
      else if st.inText then some {st with page := st.page ++ [line]}
      else if m.group2 = "/page" then
        match st.title with
        | none => none
        | some title =>
          let st1 :=
            if py_startswith title st.templatePrefix then
              {st with store := define_template st.store title st.page,
                       templates := st.templates + 1}
            else st
          let st2 :=
            if hasOutput ∧ (py_startswith title st.templatePrefix = true ∨
                            py_startswith title st.modulePrefix = true) then
              {st1 with output := st1.output ++
                (["<page>\n", "   <title>" ++ title ++ "</title>\n",
                  "   <ns>10</ns>\n", "   <text>"] ++ st.page ++
                 ["   </text>\n", "</page>\n"])}
            else st1
          some {st2 with page := [], articles := st2.articles + 1}
      else some st

/-- Run load_templates from a given state; `none` when it raised NameError. -/
def load_templates_aux (hasOutput : Bool) : LoadState → List String → Option LoadState
  | st, [] => some st
  | st, l :: ls =>
    match load_step hasOutput st l with
    | none => none
    | some st' => load_templates_aux hasOutput st' ls

/-- Model of one call of load_templates over the lines of its input file. -/
def load_templates (hasOutput : Bool)
    (templateNamespace templatePrefixInit moduleNamespace : String)
    (lines : List String) : Option LoadState :=
  load_templates_aux hasOutput
    (loadInit templateNamespace templatePrefixInit moduleNamespace) lines

/-! ## Reading a file back line by line

The mirror output file is written as a flat sequence of strings; a later run
reads it back line by line, each line keeping its trailing newline. -/

/-- Split a character stream into lines, each keeping its `'\n'`; a final
fragment without a newline is a line of its own. -/
def splitLinesAux : List Char → List Char → List (List Char)
  | acc, [] => if acc.isEmpty then [] else [acc.reverse]
  | acc, c :: rest =>
    if c = '\n' then (acc.reverse ++ ['\n']) :: splitLinesAux [] rest
    else splitLinesAux (c :: acc) rest

/-- The lines of a text file with the given contents. -/
def splitLines (s : String) : List String := (splitLinesAux [] s.data).map (fun l => ⟨l⟩)

/-- Concatenation of everything written to a file. -/
def joinAll (ls : List String) : String := ⟨(ls.map (fun s => s.data)).flatten⟩

/-! ## Siteinfo header loop (process_dump, src/main.py lines 295-315) -/

/-- The `urlbase = base[:base.rfind("/")]` update of the `base` branch. -/
def baseUpdate (b : String) : String := pySliceTo b (pyRFind b '/')

/-- The globals written by the siteinfo header loop.  Note that the loop adds
harvested namespace names to `knownNamespaces` (initially `{'Template'}`);
the separate `acceptedNamespaces` set read by collect_pages is imported from
the external extract module and is not touched here. -/
structure SiteState where
  urlbase : String
  knownNamespaces : List String
  templateNamespace : String
  templatePrefix : String
  moduleNamespace : String
  modulePrefix : String
deriving Repr, DecidableEq

/-- Global state before the header loop (`knownNamespaces = set(['Template'])`,
`templateNamespace = ''`, `moduleNamespace = ''`). -/
def siteInit : SiteState := ⟨"", ["Template"], "", "", "", ""⟩

/-- Python `set.add`. -/
def addNamespace (l : List String) (x : String) : List String :=
  if x ∈ l then l else l ++ [x]

/-- Literal substring test on character lists. -/
def containsSub (sub : List Char) : List Char → Bool
  | [] => sub.isEmpty
  | c :: rest => sub.isPrefixOf (c :: rest) || containsSub sub rest

/-- Model of `re.search('key="10"', line)`: a literal substring test. -/
def hasKey10 (line : String) : Bool := containsSub "key=\"10\"".data line.data

/-- Model of `re.search('key="828"', line)`: a literal substring test. -/
def hasKey828 (line : String) : Bool := containsSub "key=\"828\"".data line.data

/-- One iteration of the siteinfo header loop; the Bool is true when the loop
breaks on `/siteinfo`. -/
def header_step (st : SiteState) (line : String) : SiteState × Bool :=
  match tagRE_search line with
  | none => (st, false)
  | some m =>
    if m.group2 = "base" then ({st with urlbase := baseUpdate m.group3}, false)
    else if m.group2 = "namespace" then
      let st1 := {st with knownNamespaces := addNamespace st.knownNamespaces m.group3}
      if hasKey10 line then
        ({st1 with templateNamespace := m.group3,
                   templatePrefix := m.group3 ++ ":"}, false)
      else if hasKey828 line then
        ({st1 with moduleNamespace := m.group3,
                   modulePrefix := m.group3 ++ ":"}, false)
      else (st1, false)
    else if m.group2 = "/siteinfo" then (st, true)
    else (st, false)

/-- Run the header loop until `/siteinfo` or end of input. -/
def run_header : SiteState → List String → SiteState
  | st, [] => st
  | st, l :: ls =>
    match header_step st l with
    | (st', true) => st'
    | (st', false) => run_header st' ls

/-! ## Extraction pipeline shutdown (process_dump lines 347-393,
reduce_process lines 424-449) -/

/-- Queue and process operations performed by the main line of control of
process_dump, in program order. -/
inductive QOp where
  | putJob (ordinal : Nat)
  | putJobSentinel
  | joinWorker (w : Nat)
  | putOutSentinel
deriving Repr, DecidableEq

/-- Linearization of process_dump lines 363-393: `max(1, process_count)`
workers are spawned; every job is put on the jobs queue; then one `None`
sentinel per spawned worker is put on the jobs queue; then every worker is
joined; then exactly one `None` sentinel is put on the output queue. -/
def dispatchOps (jobCount process_count : Nat) : List QOp :=
  (List.range jobCount).map QOp.putJob ++
  List.replicate (max 1 process_count) QOp.putJobSentinel ++
  (List.range (max 1 process_count)).map QOp.joinWorker ++
  [QOp.putOutSentinel]

/-- Model of the reduce_process loop: pop items until a falsy one and hand
each popped item to the page writer.  Every real result is a nonempty
4-tuple, hence truthy; the sentinel `None` is falsy; so the loop stops
exactly on the sentinel.  Returns the items written, in order. -/
def reduce_loop {α : Type} : List (Option α) → List α
  | [] => []
  | none :: _ => []
  | some it :: rest => it :: reduce_loop rest

/-! ## Template-preprocessing prologue (process_dump lines 317-334) -/

/-- Arguments and environment of the template-preprocessing prologue;
`template_file_exists` models `os.path.exists(template_file)`. -/
structure DumpConfig where
  input_file : String
  template_file : Option String
  template_file_exists : Bool
  expand_templates : Bool

/-- Where the prologue gets template definitions from. -/
inductive TemplateSource where
  | fromFile
  | fromInputTwice
  | skipped
deriving Repr, DecidableEq

/-- Python truthiness of `template_file and os.path.exists(template_file)`. -/
def templateFileUsable (cfg : DumpConfig) : Bool :=
  (match cfg.template_file with
   | some s => s ≠ ""
   | none => false) && cfg.template_file_exists

/-- Model of the prologue: with template expansion enabled and no usable
template file, a `'-'` (stdin) input cannot be rescanned, so a ValueError is
raised before any processing starts. -/
def templates_phase (cfg : DumpConfig) : Except String TemplateSource :=
  if cfg.expand_templates then
    if templateFileUsable cfg then .ok .fromFile
    else if cfg.input_file = "-" then
      .error "to use templates with stdin dump, must supply explicit template-file"
    else .ok .fromInputTwice
  else .ok .skipped

/-- The plan of process_dump after the header: the prologue followed by the
pipeline operations; a prologue error aborts before any job is dispatched or
any page written. -/
def process_dump_plan (cfg : DumpConfig) (jobCount process_count : Nat) :
    Except String (List QOp) :=
  match templates_phase cfg with
  | .error e => .error e
  | .ok _ => .ok (dispatchOps jobCount process_count)

/-! ## Basic facts about the scanner -/

/-- A successful tag search requires an angle bracket in the stream. -/
theorem tagSearchAux_any_lt (cs : List Char) : ∀ (pre : List Char) (m : TagMatch),
    tagSearchAux pre cs = some m → cs.any (fun c => c == '<') = true := by
  induction cs with
  | nil => intro pre m h; simp [tagSearchAux] at h
  | cons c rest ih =>
    intro pre m h
    by_cases hc : c = '<'
    · simp [hc]
    · rw [tagSearchAux, if_neg hc] at h
      simp only [List.any_cons]
      by_cases hn : c = '\n'
      · rw [if_pos hn] at h
        rw [ih _ _ h]
        simp
      · rw [if_neg hn] at h
        rw [ih _ _ h]
        simp

/-- A line matched by the scanner contains an angle bracket. -/
theorem hasLt_of_tagSearch {line : String} {m : TagMatch}
    (h : tagRE_search line = some m) : hasLt line = true :=
  tagSearchAux_any_lt line.data [] m h

/-- Fast reject: on a bracket-free character stream the scan never matches. -/
theorem tagSearchAux_eq_none (cs : List Char)
    (h : cs.any (fun c => c == '<') = false) :
    ∀ pre : List Char, tagSearchAux pre cs = none := by
  induction cs with
  | nil => intro pre; rfl
  | cons c rest ih =>
    intro pre
    simp only [List.any_cons, Bool.or_eq_false_iff] at h
    obtain ⟨h1, h2⟩ := h
    have h1' : ¬ c = '<' := by simpa using h1
    rw [tagSearchAux, if_neg h1']
    by_cases hn : c = '\n'
    · rw [if_pos hn]; exact ih h2 []
    · rw [if_neg hn]; exact ih h2 (c :: pre)

/-! ## Settling the claims: scanner fast path, prologue error, shutdown
protocol, base URL -/

/-- Claim C8: for every input line containing no angle bracket the scanner
path returns no-match without the tag pattern being attempted (the fast
reject fires before `tagRE.search`), both collect_pages and load_templates
produce no tag event for the line, and the line is appended to the current
page buffer exactly when the collector is inside an open text element, all
other state being left unchanged. -/
theorem claim_C8_fast_reject (ctx : CollectCtx) (st : CollectState)
    (hasOutput : Bool) (lst : LoadState) (line : String)
    (h : hasLt line = false) :
    tagRE_search line = none ∧
    collect_step ctx st line =
      (if st.inText then some ({st with page := st.page ++ [line]}, none)
       else some (st, none)) ∧
    load_step hasOutput lst line =
      some (if lst.inText then {lst with page := lst.page ++ [line]} else lst) := by
  refine ⟨tagSearchAux_eq_none line.data (by simpa [hasLt] using h) [], ?_, ?_⟩
  · unfold collect_step
    rw [h]
    simp
  · unfold load_step
    rw [h]
    simp

theorem claim_C8_fast_reject_witness :
    tagRE_search "plain body line\n" = none ∧
    collect_step ⟨[], "Template"⟩ collectInit "plain body line\n" =
      (if collectInit.inText then
        some ({collectInit with page := collectInit.page ++ ["plain body line\n"]}, none)
       else some (collectInit, none)) ∧
    load_step false (loadInit "Template" "Template:" "Module") "plain body line\n" =
      some (if (loadInit "Template" "Template:" "Module").inText then
        {loadInit "Template" "Template:" "Module" with
          page := (loadInit "Template" "Template:" "Module").page ++ ["plain body line\n"]}
       else loadInit "Template" "Template:" "Module") :=
  claim_C8_fast_reject ⟨[], "Template"⟩ collectInit false
    (loadInit "Template" "Template:" "Module") "plain body line\n" (by decide)

/-- Claim C6: with template expansion enabled, the non-replayable stdin
input `'-'`, and no usable explicit template file, process_dump raises the
ValueError in the preprocessing prologue, before any processing starts: the
resulting plan is an error carrying the diagnostic and contains no dispatch
or write operation. -/
theorem claim_C6_stdin_template_error (cfg : DumpConfig)
    (jobCount process_count : Nat)
    (he : cfg.expand_templates = true) (hu : templateFileUsable cfg = false)
    (hi : cfg.input_file = "-") :
    templates_phase cfg =
      .error "to use templates with stdin dump, must supply explicit template-file" ∧
    process_dump_plan cfg jobCount process_count =
      .error "to use templates with stdin dump, must supply explicit template-file" := by
  have h1 : templates_phase cfg =
      .error "to use templates with stdin dump, must supply explicit template-file" := by
    unfold templates_phase
    rw [he, hu, hi]
    simp
  refine ⟨h1, ?_⟩
  unfold process_dump_plan
  rw [h1]

theorem claim_C6_stdin_template_error_witness :
    templates_phase ⟨"-", none, false, true⟩ =
      .error "to use templates with stdin dump, must supply explicit template-file" ∧
    process_dump_plan ⟨"-", none, false, true⟩ 5 2 =
      .error "to use templates with stdin dump, must supply explicit template-file" :=
  claim_C6_stdin_template_error ⟨"-", none, false, true⟩ 5 2 rfl (by decide) rfl

/-- Claim C2: after the page source is exhausted the main line of control
puts exactly one sentinel per spawned worker on the jobs queue and exactly
one sentinel on the result queue; the result-queue sentinel is the very last
operation, so it comes after every worker join; and the reducer loop stops
exactly when it pops that sentinel, writing precisely the results queued
before it and nothing after it. -/
theorem claim_C2_sentinel_shutdown :
    (∀ jobCount process_count : Nat,
      (dispatchOps jobCount process_count).count QOp.putJobSentinel =
        max 1 process_count ∧
      (dispatchOps jobCount process_count).count QOp.putOutSentinel = 1 ∧
      (dispatchOps jobCount process_count).getLast? = some QOp.putOutSentinel ∧
      (∀ w : Nat, QOp.joinWorker w ∈ (dispatchOps jobCount process_count).dropLast ↔
        w < max 1 process_count)) ∧
    (∀ (α : Type) (written junk : List α),
      reduce_loop (written.map some ++ none :: junk.map some) = written) := by
  constructor
  · intro jobCount process_count
    have hsplit : dispatchOps jobCount process_count =
        ((List.range jobCount).map QOp.putJob ++
         List.replicate (max 1 process_count) QOp.putJobSentinel ++
         (List.range (max 1 process_count)).map QOp.joinWorker) ++
        [QOp.putOutSentinel] := by
      simp [dispatchOps, List.append_assoc]
    have hz1 : (List.map QOp.putJob (List.range jobCount)).count QOp.putJobSentinel = 0 :=
      List.count_eq_zero.mpr (by simp)
    have hz2 : (List.map QOp.joinWorker (List.range (max 1 process_count))).count
        QOp.putJobSentinel = 0 := List.count_eq_zero.mpr (by simp)
    have hz3 : (List.map QOp.putJob (List.range jobCount)).count QOp.putOutSentinel = 0 :=
      List.count_eq_zero.mpr (by simp)
    have hz4 : (List.map QOp.joinWorker (List.range (max 1 process_count))).count
        QOp.putOutSentinel = 0 := List.count_eq_zero.mpr (by simp)
    have hz5 : (List.replicate (max 1 process_count) QOp.putJobSentinel).count
        QOp.putOutSentinel = 0 := List.count_eq_zero.mpr (by simp [List.mem_replicate])
    refine ⟨?_, ?_, ?_, ?_⟩
    · rw [hsplit]
      simp [List.count_append, List.count_replicate, hz1, hz2]
    · rw [hsplit]
      simp [List.count_append, hz3, hz4, hz5]
    · rw [hsplit, List.getLast?_concat]
    · intro w
      rw [hsplit, List.dropLast_concat]
      simp [List.mem_append, List.mem_map, List.mem_replicate, List.mem_range]
  · intro α written junk
    induction written with
    | nil => rfl
    | cons a l ih => simpa [reduce_loop] using ih

theorem claim_C2_sentinel_shutdown_witness :
    (dispatchOps 2 3).count QOp.putJobSentinel = 3 ∧
    (dispatchOps 2 3).getLast? = some QOp.putOutSentinel ∧
    (QOp.joinWorker 1 ∈ (dispatchOps 2 3).dropLast ↔ 1 < max 1 3) ∧
    reduce_loop ([5, 6].map some ++ none :: [9].map some) = [5, 6] :=
  ⟨(claim_C2_sentinel_shutdown.1 2 3).1, (claim_C2_sentinel_shutdown.1 2 3).2.2.1,
   (claim_C2_sentinel_shutdown.1 2 3).2.2.2 1, claim_C2_sentinel_shutdown.2 Nat [5, 6] [9]⟩

/-! ## Claim C7: the base URL update -/

/-- Modelled from the spec sentence "tag base sets baseUrl (path up to last
'/')": split the payload as `p ++ '/' :: t` with no slash in `t`; `none` when
the payload contains no slash at all, in which case the spec's "path up to
the last '/'" does not exist. -/
def splitAtLastSlash : List Char → Option (List Char × List Char)
  | [] => none
  | a :: l =>
    match splitAtLastSlash l with
    | some (p, t) => some (a :: p, t)
    | none => if a = '/' then some ([], l) else none

/-- Characterization of `rfind('/')` by the last-slash decomposition. -/
theorem rfindAux_splitAtLastSlash (l : List Char) :
    (splitAtLastSlash l = none → rfindAux '/' l = -1 ∧ '/' ∉ l) ∧
    (∀ p t, splitAtLastSlash l = some (p, t) →
      rfindAux '/' l = p.length ∧ l = p ++ '/' :: t ∧ '/' ∉ t) := by
  induction l with
  | nil =>
    refine ⟨fun _ => ⟨rfl, by simp⟩, ?_⟩
    intro p t h
    simp [splitAtLastSlash] at h
  | cons a l ih =>
    cases hs : splitAtLastSlash l with
    | some pt =>
      obtain ⟨p, t⟩ := pt
      obtain ⟨hr, hl, hnt⟩ := ih.2 p t hs
      constructor
      · intro h
        rw [splitAtLastSlash, hs] at h
        simp at h
      · intro p' t' h
        rw [splitAtLastSlash, hs] at h
        simp only [Option.some.injEq, Prod.mk.injEq] at h
        obtain ⟨hp', ht'⟩ := h
        subst hp'
        subst ht'
        refine ⟨?_, by rw [hl]; simp, hnt⟩
        rw [rfindAux]
        simp only [hr]
        have : (0 : Int) ≤ p.length := Int.ofNat_nonneg _
        rw [if_pos (by exact_mod_cast this)]
        simp
    | none =>
      obtain ⟨hr, hnl⟩ := ih.1 hs
      by_cases ha : a = '/'
      · constructor
        · intro h
          rw [splitAtLastSlash, hs] at h
          simp [ha] at h
        · intro p' t' h
          rw [splitAtLastSlash, hs] at h
          rw [if_pos ha] at h
          simp only [Option.some.injEq, Prod.mk.injEq] at h
          obtain ⟨hp', ht'⟩ := h
          subst hp'
          subst ht'
          refine ⟨?_, by rw [ha]; rfl, hnl⟩
          rw [rfindAux]
          simp only [hr]
          norm_num [ha]
      · constructor
        · intro _
          refine ⟨?_, ?_⟩
          · rw [rfindAux]
            simp only [hr]
            norm_num [ha]
          · simp only [List.mem_cons, not_or]
            exact ⟨fun h => ha h.symm, hnl⟩
        · intro p' t' h
          rw [splitAtLastSlash, hs, if_neg ha] at h
          simp at h

/-- Claim C7 (amended): a header line matching tag `base` with payload `b`
sets urlbase to `b[:b.rfind('/')]`; when `b` contains a slash this is exactly
the prefix of `b` before its last `'/'`; when `b` contains no slash, `rfind`
returns `-1` and the Python slice instead drops the final character of `b`. -/
theorem claim_C7_base_url (st : SiteState) (line : String) (m : TagMatch)
    (hm : tagRE_search line = some m) (hb : m.group2 = "base") :
    ((header_step st line).1.urlbase = baseUpdate m.group3 ∧
      (header_step st line).2 = false) ∧
    (∀ p t, splitAtLastSlash m.group3.data = some (p, t) →
      baseUpdate m.group3 = ⟨p⟩) ∧
    (splitAtLastSlash m.group3.data = none →
      baseUpdate m.group3 = ⟨m.group3.data.dropLast⟩) := by
  refine ⟨?_, ?_, ?_⟩
  · unfold header_step
    rw [hm]
    simp [hb]
  · intro p t h
    obtain ⟨hr, hl, -⟩ := (rfindAux_splitAtLastSlash m.group3.data).2 p t h
    unfold baseUpdate pySliceTo pyRFind
    rw [hr]
    have hnn : ¬ ((p.length : Int) < 0) := by exact_mod_cast Int.not_lt.mpr (Int.ofNat_nonneg _)
    rw [if_neg hnn]
    congr 1
    rw [hl]
    simp [List.take_left p ('/' :: t)]

  · intro h
    obtain ⟨hr, -⟩ := (rfindAux_splitAtLastSlash m.group3.data).1 h
    unfold baseUpdate pySliceTo pyRFind
    rw [hr]
    rw [if_pos (by norm_num)]
    congr 1
    rw [List.dropLast_eq_take]
    congr 1
    omega

/-- Claim C7 as stated is false for a payload with no slash: on the header
line `<base>ab</base>` the code sets urlbase to `"a"` (the slice
`"ab"[:-1]`), while the claimed "prefix of b ending just before b's last '/'"
does not exist because `"ab"` contains no slash. -/
theorem claim_C7_counterexample :
    tagRE_search "<base>ab</base>\n" = some ⟨"", "base", "ab", some "</base>"⟩ ∧
    (run_header siteInit ["<base>ab</base>\n"]).urlbase = "a" ∧
    splitAtLastSlash "ab".data = none := by
  refine ⟨by decide, by decide, by decide⟩

theorem claim_C7_base_url_witness :
    ((header_step siteInit "<base>http://x.org/wiki/Main</base>\n").1.urlbase =
        baseUpdate "http://x.org/wiki/Main" ∧
      (header_step siteInit "<base>http://x.org/wiki/Main</base>\n").2 = false) ∧
    (∀ p t, splitAtLastSlash "http://x.org/wiki/Main".data = some (p, t) →
      baseUpdate "http://x.org/wiki/Main" = ⟨p⟩) ∧
    (splitAtLastSlash "http://x.org/wiki/Main".data = none →
      baseUpdate "http://x.org/wiki/Main" = ⟨"http://x.org/wiki/Main".data.dropLast⟩) :=
  claim_C7_base_url siteInit "<base>http://x.org/wiki/Main</base>\n"
    ⟨"", "base", "http://x.org/wiki/Main", some "</base>"⟩ (by decide) rfl

/-! ## Step lemmas for the Page Collector -/

/-- Whether the scanner matches this line with the given tag name. -/
def isTag (line tag : String) : Bool :=
  match tagRE_search line with
  | some m => m.group2 == tag
  | none => false

/-- Propositional reading of the yield test, with the code's bare-name
template condition (d). -/
theorem yieldCond_iff (ctx : CollectCtx) (st : CollectState) (t : String) :
    yieldCond ctx st t = true ↔
      ((pyFind t ':' < 0 ∨ pySliceTo t (pyFind t ':') ∈ ctx.acceptedNamespaces) ∧
       st.id ≠ st.last_id ∧ st.redirect = false ∧
       py_startswith t ctx.templateNamespace = false) := by
  unfold yieldCond
  simp only [Bool.and_eq_true, Bool.or_eq_true, decide_eq_true_eq,
    Bool.not_eq_true']
  tauto

/-- Complete case analysis of the collect_pages loop body: either it
succeeds, preserving `last_id` unless it yields (in which case `last_id`
becomes the yielded id), never unsetting `title`, setting `title` on a
`title` line, and yielding only from the `/page` branch with the yield test
true; or it raises NameError, which happens only on a `/page` line processed
outside a text element with `title` unassigned. -/
theorem collect_step_total (ctx : CollectCtx) (st : CollectState) (line : String) :
    (∃ st' out, collect_step ctx st line = some (st', out) ∧
      st'.last_id = (match out with | some _ => st.id | none => st.last_id) ∧
      (st.title.isSome → st'.title.isSome) ∧
      (isTag line "title" = true → st'.title.isSome) ∧
      (∀ r, out = some r → st.title = some r.title ∧ r.id = st.id ∧
        r.revid = st.revid ∧ r.page = st.page ∧
        yieldCond ctx st r.title = true ∧ st.inText = false)) ∨
    (collect_step ctx st line = none ∧ st.inText = false ∧ st.title = none ∧
      isTag line "/page" = true) := by
  unfold collect_step
  by_cases h0 : (!hasLt line) = true
  · rw [if_pos h0]
    have hnone : tagRE_search line = none :=
      tagSearchAux_eq_none line.data (by simpa [hasLt] using h0) []
    have hTag : isTag line "title" = false := by unfold isTag; rw [hnone]
    by_cases h1 : st.inText = true
    · rw [if_pos h1]
      exact Or.inl ⟨_, _, rfl, rfl, fun hs => hs,
        fun hc => absurd hc (by simp [hTag]), by simp⟩
    · rw [if_neg h1]
      exact Or.inl ⟨_, _, rfl, rfl, fun hs => hs,
        fun hc => absurd hc (by simp [hTag]), by simp⟩
  · rw [if_neg h0]
    cases hm : tagRE_search line with
    | none =>
      have hTag : isTag line "title" = false := by unfold isTag; rw [hm]
      exact Or.inl ⟨_, _, rfl, rfl, fun hs => hs,
        fun hc => absurd hc (by simp [hTag]), by simp⟩
    | some m =>
      dsimp only
      by_cases g1 : m.group2 = "page"
      · rw [if_pos g1]
        have hTag : isTag line "title" = false := by
          unfold isTag; rw [hm]; simp [g1]
        exact Or.inl ⟨_, _, rfl, rfl, fun hs => hs,
          fun hc => absurd hc (by simp [hTag]), by simp⟩
      · rw [if_neg g1]
        by_cases g2 : m.group2 = "id" ∧ st.id = ""
        · rw [if_pos g2]
          have hTag : isTag line "title" = false := by
            unfold isTag; rw [hm]; simp [g2.1]
          exact Or.inl ⟨_, _, rfl, rfl, fun hs => hs,
            fun hc => absurd hc (by simp [hTag]), by simp⟩
        · rw [if_neg g2]
          by_cases g3 : m.group2 = "id" ∧ st.id ≠ ""
          · rw [if_pos g3]
            have hTag : isTag line "title" = false := by
              unfold isTag; rw [hm]; simp [g3.1]
            exact Or.inl ⟨_, _, rfl, rfl, fun hs => hs,
              fun hc => absurd hc (by simp [hTag]), by simp⟩
          · rw [if_neg g3]
            by_cases g4 : m.group2 = "title"
            · rw [if_pos g4]
              exact Or.inl ⟨_, _, rfl, rfl, fun _ => rfl, fun _ => rfl, by simp⟩
            · rw [if_neg g4]
              have hTag : isTag line "title" = false := by
                unfold isTag; rw [hm]; simpa using g4
              by_cases g5 : m.group2 = "redirect"
              · rw [if_pos g5]
                exact Or.inl ⟨_, _, rfl, rfl, fun hs => hs,
                  fun hc => absurd hc (by simp [hTag]), by simp⟩
              · rw [if_neg g5]
                by_cases g6 : m.group2 = "text"
                · rw [if_pos g6]
                  exact Or.inl ⟨_, _, rfl, rfl, fun hs => hs,
                    fun hc => absurd hc (by simp [hTag]), by simp⟩
                · rw [if_neg g6]
                  by_cases g7 : m.group2 = "/text"
                  · rw [if_pos g7]
                    exact Or.inl ⟨_, _, rfl, rfl, fun hs => hs,
                      fun hc => absurd hc (by simp [hTag]), by simp⟩
                  · rw [if_neg g7]
                    by_cases g8 : st.inText = true
                    · rw [if_pos g8]
                      exact Or.inl ⟨_, _, rfl, rfl, fun hs => hs,
                        fun hc => absurd hc (by simp [hTag]), by simp⟩
                    · rw [if_neg g8]
                      by_cases g9 : m.group2 = "/page"
                      · rw [if_pos g9]
                        cases ht : st.title with
                        | none =>
                          refine Or.inr ⟨rfl, by simpa using g8, rfl, ?_⟩
                          unfold isTag
                          rw [hm]
                          simp [g9]
                        | some t =>
                          dsimp only
                          by_cases gy : yieldCond ctx st t = true
                          · rw [if_pos gy]
                            refine Or.inl ⟨_, _, rfl, rfl, fun _ => rfl,
                              fun hc => absurd hc (by simp [hTag]), ?_⟩
                            intro r hr
                            obtain rfl := (Option.some.inj hr).symm
                            exact ⟨rfl, rfl, rfl, rfl, gy, by simpa using g8⟩
                          · rw [if_neg gy]
                            exact Or.inl ⟨_, _, rfl, rfl, fun _ => rfl,
                              fun hc => absurd hc (by simp [hTag]), by simp⟩
                      · rw [if_neg g9]
                        exact Or.inl ⟨_, _, rfl, rfl, fun hs => hs,
                          fun hc => absurd hc (by simp [hTag]), by simp⟩

/-- Inversion for a successful loop iteration. -/
theorem collect_step_some_inv {ctx : CollectCtx} {st : CollectState}
    {line : String} {st' : CollectState} {out : Option PageRecord}
    (h : collect_step ctx st line = some (st', out)) :
    (out = none → st'.last_id = st.last_id) ∧
    (st.title.isSome → st'.title.isSome) ∧
    (isTag line "title" = true → st'.title.isSome) ∧
    (∀ r, out = some r → st'.last_id = st.id ∧ st.title = some r.title ∧
      r.id = st.id ∧ r.revid = st.revid ∧ r.page = st.page ∧
      yieldCond ctx st r.title = true ∧ st.inText = false) := by
  rcases collect_step_total ctx st line with ⟨st'', out'', heq, hrest⟩ | ⟨heq, -⟩
  · rw [h] at heq
    simp only [Option.some.injEq, Prod.mk.injEq] at heq
    obtain ⟨h1, h2⟩ := heq
    subst h1
    subst h2
    refine ⟨?_, hrest.2.1, hrest.2.2.1, ?_⟩
    · intro ho
      subst ho
      simpa using hrest.1
    · intro r hr
      have h5 := hrest.2.2.2 r hr
      subst hr
      exact ⟨by simpa using hrest.1, h5⟩
  · rw [h] at heq
    exact absurd heq (by simp)

/-- Inversion for a NameError raise: it happens only at a `/page` line
reached outside a text element with `title` unassigned. -/
theorem collect_step_none_inv {ctx : CollectCtx} {st : CollectState} {line : String}
    (h : collect_step ctx st line = none) :
    st.inText = false ∧ st.title = none ∧ isTag line "/page" = true := by
  rcases collect_step_total ctx st line with ⟨st'', out'', heq, -⟩ | ⟨-, hrest⟩
  · rw [h] at heq
    exact absurd heq (by simp)
  · exact hrest

/-- The loop body raises on a `/page` line reached outside a text element
with `title` still unassigned. -/
theorem collect_step_crash (ctx : CollectCtx) (st : CollectState)
    {line : String} {m : TagMatch}
    (hm : tagRE_search line = some m) (h2 : m.group2 = "/page")
    (hT : st.inText = false) (ht : st.title = none) :
    collect_step ctx st line = none := by
  unfold collect_step
  rw [hasLt_of_tagSearch hm]
  rw [if_neg (by simp), hm]
  dsimp only
  rw [if_neg (by simp [h2]), if_neg (by simp [h2]), if_neg (by simp [h2]),
      if_neg (by simp [h2]), if_neg (by simp [h2]), if_neg (by simp [h2]),
      if_neg (by simp [h2]), if_neg (by simp [hT]), if_pos h2, ht]

/-- Full description of the `/page` step with `title` assigned: the body
yields the record exactly when the yield test passes, and resets the
per-page state either way, updating `last_id` only on a yield. -/
theorem collect_step_pageclose (ctx : CollectCtx) (st : CollectState)
    {line : String} {m : TagMatch} {t : String}
    (hm : tagRE_search line = some m) (h2 : m.group2 = "/page")
    (hT : st.inText = false) (ht : st.title = some t) :
    collect_step ctx st line =
      some ({st with
              id := "", revid := "", page := [], inText := false,
              redirect := false,
              last_id := if yieldCond ctx st t then st.id else st.last_id},
            if yieldCond ctx st t then some ⟨st.id, st.revid, t, st.page⟩
            else none) := by
  unfold collect_step
  rw [hasLt_of_tagSearch hm]
  rw [if_neg (by simp), hm]
  dsimp only
  rw [if_neg (by simp [h2]), if_neg (by simp [h2]), if_neg (by simp [h2]),
      if_neg (by simp [h2]), if_neg (by simp [h2]), if_neg (by simp [h2]),
      if_neg (by simp [h2]), if_neg (by simp [hT]), if_pos h2, ht]
  dsimp only
  by_cases hy : yieldCond ctx st t = true
  · simp only [if_pos hy]
  · simp only [if_neg hy]

/-! ## Run-level lemmas for the Page Collector -/

/-- Splitting a collect_pages run at a list append. -/
theorem collect_pages_aux_append (ctx : CollectCtx) (l₁ l₂ : List String) :
    ∀ st : CollectState, collect_pages_aux ctx st (l₁ ++ l₂) =
      ((collect_pages_aux ctx st l₁).1 ++
        (match (collect_pages_aux ctx st l₁).2 with
         | some st₁ => (collect_pages_aux ctx st₁ l₂).1
         | none => []),
       match (collect_pages_aux ctx st l₁).2 with
       | some st₁ => (collect_pages_aux ctx st₁ l₂).2
       | none => none) := by
  induction l₁ with
  | nil => intro st; simp [collect_pages_aux]
  | cons l ls ih =>
    intro st
    simp only [List.cons_append, collect_pages_aux]
    cases hst : collect_step ctx st l with
    | none => simp
    | some p =>
      obtain ⟨st', out⟩ := p
      dsimp only
      simp only [List.append_eq]
      rw [ih st']
      cases (collect_pages_aux ctx st' ls).2 <;> simp

/-- Once `title` is assigned the generator can no longer raise. -/
theorem collect_no_crash_of_title (ctx : CollectCtx) (ls : List String) :
    ∀ st : CollectState, st.title.isSome →
      (collect_pages_aux ctx st ls).2.isSome := by
  induction ls with
  | nil => intro st _; simp [collect_pages_aux]
  | cons l ls ih =>
    intro st hs
    simp only [collect_pages_aux]
    cases hst : collect_step ctx st l with
    | none =>
      obtain ⟨-, ht, -⟩ := collect_step_none_inv hst
      rw [ht] at hs
      simp at hs
    | some p =>
      obtain ⟨st', out⟩ := p
      simpa using ih st' ((collect_step_some_inv hst).2.1 hs)

/-- A run over lines none of which matches `/page` cannot raise. -/
theorem collect_no_crash_of_no_pageclose (ctx : CollectCtx) (ls : List String)
    (hnp : ∀ l ∈ ls, isTag l "/page" = false) :
    ∀ st : CollectState, (collect_pages_aux ctx st ls).2.isSome := by
  induction ls with
  | nil => intro st; simp [collect_pages_aux]
  | cons l ls ih =>
    intro st
    simp only [collect_pages_aux]
    cases hst : collect_step ctx st l with
    | none =>
      obtain ⟨-, -, hp⟩ := collect_step_none_inv hst
      rw [hnp l (by simp)] at hp
      exact absurd hp (by simp)
    | some p =>
      obtain ⟨st', out⟩ := p
      simpa using ih (fun x hx => hnp x (by simp [hx])) st'

/-- Python `startswith` with the empty prefix is always true. -/
theorem py_startswith_empty (s : String) : py_startswith s "" = true := by
  unfold py_startswith
  have hd : ("" : String).data = [] := rfl
  rw [hd]
  cases s.data <;> rfl

/-! ## Claims about collect_pages -/

/-- Claim C9: when the template namespace name is the empty string, every
title starts with it, so condition (d) of the yield test always fails and
collect_pages yields no record for any input whatsoever. -/
theorem claim_C9_empty_template_namespace (ctx : CollectCtx)
    (h : ctx.templateNamespace = "") (lines : List String) :
    (collect_pages ctx lines).1 = [] ∧
    ∀ t : String, py_startswith t ctx.templateNamespace = true := by
  refine ⟨?_, fun t => by rw [h]; exact py_startswith_empty t⟩
  suffices haux : ∀ (ls : List String) (st : CollectState),
      (collect_pages_aux ctx st ls).1 = [] from haux lines collectInit
  intro ls
  induction ls with
  | nil => intro st; simp [collect_pages_aux]
  | cons l ls ih =>
    intro st
    simp only [collect_pages_aux]
    cases hst : collect_step ctx st l with
    | none => rfl
    | some p =>
      obtain ⟨st', out⟩ := p
      dsimp only
      rw [ih st']
      cases hout : out with
      | none => simp
      | some r =>
        have hy := ((collect_step_some_inv hst).2.2.2 r hout).2.2.2.2.2.1
        rw [yieldCond_iff] at hy
        have := hy.2.2.2
        rw [h, py_startswith_empty] at this
        exact absurd this (by simp)

theorem claim_C9_empty_template_namespace_witness :
    (collect_pages ⟨[], ""⟩
      ["<page>\n", "  <id>4</id>\n", "  <title>A</title>\n", "</page>\n"]).1 = [] ∧
    ∀ t : String, py_startswith t ("" : String) = true :=
  claim_C9_empty_template_namespace ⟨[], ""⟩ rfl
    ["<page>\n", "  <id>4</id>\n", "  <title>A</title>\n", "</page>\n"]

/-- Claim C1 (amended): at a `/page` line processed outside a text element
with `title` assigned to `t`, a record `(id, revid, t, page)` is yielded iff
(a) the title has no colon or its pre-colon prefix is in the accepted
namespace set, (b) the id differs from the previously yielded id, (c) no
redirect tag was seen, and (d) the title does not start with the template
namespace NAME itself — the code appends no colon here, unlike
load_templates, so condition (d) uses the bare name; and any yielded record
is exactly that tuple. -/
theorem claim_C1_yield_iff (ctx : CollectCtx) (st : CollectState)
    (line : String) (m : TagMatch) (t : String)
    (hm : tagRE_search line = some m) (h2 : m.group2 = "/page")
    (hT : st.inText = false) (ht : st.title = some t) :
    ((∃ st', collect_step ctx st line =
        some (st', some ⟨st.id, st.revid, t, st.page⟩)) ↔
      ((pyFind t ':' < 0 ∨ pySliceTo t (pyFind t ':') ∈ ctx.acceptedNamespaces) ∧
       st.id ≠ st.last_id ∧ st.redirect = false ∧
       py_startswith t ctx.templateNamespace = false)) ∧
    (∀ st' r, collect_step ctx st line = some (st', some r) →
      r = ⟨st.id, st.revid, t, st.page⟩) := by
  have hpc := collect_step_pageclose ctx st hm h2 hT ht
  constructor
  · rw [← yieldCond_iff]
    constructor
    · rintro ⟨st', hst⟩
      rw [hpc] at hst
      simp only [Option.some.injEq, Prod.mk.injEq] at hst
      obtain ⟨-, h2⟩ := hst
      by_cases hy : yieldCond ctx st t = true
      · exact hy
      · rw [if_neg hy] at h2
        exact absurd h2 (by simp)
    · intro hy
      refine ⟨{st with
                id := "", revid := "", page := [], inText := false,
                redirect := false, last_id := st.id}, ?_⟩
      rw [hpc]
      simp only [if_pos hy]
  · intro st' r hst
    rw [hpc] at hst
    simp only [Option.some.injEq, Prod.mk.injEq] at hst
    obtain ⟨-, h2⟩ := hst
    by_cases hy : yieldCond ctx st t = true
    · rw [if_pos hy] at h2
      exact (Option.some.inj h2).symm
    · rw [if_neg hy] at h2
      exact absurd h2 (by simp)

/-- Claim C1 as stated is false at condition (d): with template namespace
name "Template", the page titled "Templates" meets all four conditions as
the claim words them — no colon in the title, a fresh id, no redirect, and
the title does not start with the claimed prefix "Template:" — yet
collect_pages yields nothing, because the code tests
`title.startswith(templateNamespace)` with the bare name, which "Templates"
does start with. -/
theorem claim_C1_counterexample :
    (pyFind "Templates" ':' < 0 ∧ ("5" : String) ≠ "" ∧
     py_startswith "Templates" ("Template" ++ ":") = false ∧
     py_startswith "Templates" "Template" = true) ∧
    (collect_pages ⟨[], "Template"⟩
      ["<page>\n", "  <id>5</id>\n", "  <title>Templates</title>\n",
       "</page>\n"]).1 = [] :=
  ⟨by decide, by decide⟩

theorem claim_C1_yield_iff_witness :
    ∃ st', collect_step ⟨[], "Template"⟩
        ⟨[], "7", "", "", false, false, some "Hello"⟩ "</page>\n" =
      some (st', some ⟨"7", "", "Hello", []⟩) :=
  ((claim_C1_yield_iff ⟨[], "Template"⟩ ⟨[], "7", "", "", false, false, some "Hello"⟩
      "</page>\n" ⟨"", "/page", "\n", none⟩ "Hello"
      (by decide) rfl rfl rfl).1).mpr (by decide)

/-- Claim C3: the duplicate-id filter is adjacent-only and compares against
the last yielded id: a yield always sets `last_id` to the yielded id and
requires the id to differ from it, a non-yielding iteration leaves `last_id`
unchanged, and concretely two consecutive qualifying pages with the same id
produce only the first record while an intervening different id lets both
occurrences of the repeated id through. -/
theorem claim_C3_adjacent_dedup :
    (∀ (ctx : CollectCtx) (st : CollectState) (line : String)
        (st' : CollectState) (r : PageRecord),
      collect_step ctx st line = some (st', some r) →
        st'.last_id = r.id ∧ r.id ≠ st.last_id) ∧
    (∀ (ctx : CollectCtx) (st : CollectState) (line : String)
        (st' : CollectState),
      collect_step ctx st line = some (st', none) → st'.last_id = st.last_id) ∧
    (collect_pages ⟨[], "T"⟩
      ["<page>\n", "  <id>7</id>\n", "  <title>A</title>\n", "</page>\n",
       "<page>\n", "  <id>7</id>\n", "  <title>B</title>\n", "</page>\n"]).1 =
      [⟨"7", "", "A", []⟩] ∧
    (collect_pages ⟨[], "T"⟩
      ["<page>\n", "  <id>7</id>\n", "  <title>A</title>\n", "</page>\n",
       "<page>\n", "  <id>8</id>\n", "  <title>B</title>\n", "</page>\n",
       "<page>\n", "  <id>7</id>\n", "  <title>C</title>\n", "</page>\n"]).1 =
      [⟨"7", "", "A", []⟩, ⟨"8", "", "B", []⟩, ⟨"7", "", "C", []⟩] := by
  refine ⟨?_, ?_, by decide, by decide⟩
  · intro ctx st line st' r h
    obtain ⟨hlast, -, hid, -, -, hy, -⟩ := (collect_step_some_inv h).2.2.2 r rfl
    rw [yieldCond_iff] at hy
    exact ⟨by rw [hlast, hid], by rw [hid]; exact hy.2.1⟩
  · intro ctx st line st' h
    exact (collect_step_some_inv h).1 rfl

theorem claim_C3_adjacent_dedup_witness :
    (⟨[], "", "", "7", false, false, some "A"⟩ : CollectState).last_id = "7" ∧
    ("7" : String) ≠ "" := by
  have h := claim_C3_adjacent_dedup.1 ⟨[], "T"⟩
    ⟨[], "7", "", "", false, false, some "A"⟩ "</page>\n"
    ⟨[], "", "", "7", false, false, some "A"⟩ ⟨"7", "", "A", []⟩ (by decide)
  exact ⟨h.1, h.2⟩

/-- Membership after a Python set add. -/
theorem mem_addNamespace (l : List String) (x : String) : x ∈ addNamespace l x := by
  unfold addNamespace
  by_cases hx : x ∈ l
  · rwa [if_pos hx]
  · rw [if_neg hx]
    simp

/-- Claim C5 (amended): every namespace name harvested from a `namespace`
tag in the siteinfo header is added to the `knownNamespaces` set — but the
Page Collector never consults that set: its namespace filter reads the
separate `acceptedNamespaces` set imported from the extract module, which
the header loop leaves untouched, so every yielded record with a colon in
its title has its prefix in `acceptedNamespaces`. -/
theorem claim_C5_namespace_sets (st : SiteState) (line : String) (m : TagMatch)
    (hm : tagRE_search line = some m) (h2 : m.group2 = "namespace") :
    m.group3 ∈ ((header_step st line).1).knownNamespaces ∧
    (∀ (ctx : CollectCtx) (cst : CollectState) (l : String)
        (cst' : CollectState) (r : PageRecord),
      collect_step ctx cst l = some (cst', some r) →
        pyFind r.title ':' < 0 ∨
          pySliceTo r.title (pyFind r.title ':') ∈ ctx.acceptedNamespaces) := by
  constructor
  · unfold header_step
    rw [hm]
    dsimp only
    rw [if_neg (by simp [h2]), if_pos h2]
    by_cases k10 : hasKey10 line = true
    · rw [if_pos k10]
      exact mem_addNamespace st.knownNamespaces m.group3
    · rw [if_neg k10]
      by_cases k828 : hasKey828 line = true
      · rw [if_pos k828]
        exact mem_addNamespace st.knownNamespaces m.group3
      · rw [if_neg k828]
        exact mem_addNamespace st.knownNamespaces m.group3
  · intro ctx cst l cst' r h
    have hy := ((collect_step_some_inv h).2.2.2 r rfl).2.2.2.2.2.1
    rw [yieldCond_iff] at hy
    exact hy.1

/-- Claim C5 as stated is false: the header loop records harvested names in
`knownNamespaces` only, which collect_pages never reads.  After a header
declaring namespace "Foo" (and key-10 namespace "Template"), the page
"Foo:Bar" is still not yielded when the acceptedNamespaces set consulted by
the collector lacks "Foo"; it is yielded exactly when "Foo" is put into that
separate set. -/
theorem claim_C5_counterexample :
    "Foo" ∈ (run_header siteInit
      ["    <namespace key=\"4\">Foo</namespace>\n",
       "    <namespace key=\"10\">Template</namespace>\n",
       "  </siteinfo>\n"]).knownNamespaces ∧
    (run_header siteInit
      ["    <namespace key=\"4\">Foo</namespace>\n",
       "    <namespace key=\"10\">Template</namespace>\n",
       "  </siteinfo>\n"]).templateNamespace = "Template" ∧
    (collect_pages ⟨[], "Template"⟩
      ["<page>\n", "  <id>3</id>\n", "  <title>Foo:Bar</title>\n",
       "</page>\n"]).1 = [] ∧
    (collect_pages ⟨["Foo"], "Template"⟩
      ["<page>\n", "  <id>3</id>\n", "  <title>Foo:Bar</title>\n",
       "</page>\n"]).1 = [⟨"3", "", "Foo:Bar", []⟩] :=
  ⟨by decide, by decide, by decide, by decide⟩

theorem claim_C5_namespace_sets_witness :
    ("Wikipedia" : String) ∈ (header_step siteInit
      "      <namespace key=\"4\">Wikipedia</namespace>\n").1.knownNamespaces :=
  (claim_C5_namespace_sets siteInit
    "      <namespace key=\"4\">Wikipedia</namespace>\n"
    ⟨"      ", "namespace", "Wikipedia", some "</namespace>"⟩
    (by decide) rfl).1

/-! ## Step lemmas for the Template Collector -/

/-- Complete case analysis of the load_templates loop body: either it
succeeds, never unsetting `title` and setting it on a `title` line, or it
raises NameError, which happens only on a `/page` line processed outside a
text element with `title` unassigned. -/
theorem load_step_total (hasOutput : Bool) (st : LoadState) (line : String) :
    (∃ st', load_step hasOutput st line = some st' ∧
      (st.title.isSome → st'.title.isSome) ∧
      (isTag line "title" = true → st'.title.isSome)) ∨
    (load_step hasOutput st line = none ∧ st.inText = false ∧ st.title = none ∧
      isTag line "/page" = true) := by
  unfold load_step
  by_cases h0 : (!hasLt line) = true
  · rw [if_pos h0]
    have hnone : tagRE_search line = none :=
      tagSearchAux_eq_none line.data (by simpa [hasLt] using h0) []
    have hTag : isTag line "title" = false := by unfold isTag; rw [hnone]
    by_cases h1 : st.inText = true
    · rw [if_pos h1]
      exact Or.inl ⟨_, rfl, fun hs => hs, fun hc => absurd hc (by simp [hTag])⟩
    · rw [if_neg h1]
      exact Or.inl ⟨_, rfl, fun hs => hs, fun hc => absurd hc (by simp [hTag])⟩
  · rw [if_neg h0]
    cases hm : tagRE_search line with
    | none =>
      have hTag : isTag line "title" = false := by unfold isTag; rw [hm]
      exact Or.inl ⟨_, rfl, fun hs => hs, fun hc => absurd hc (by simp [hTag])⟩
    | some m =>
      dsimp only
      by_cases g1 : m.group2 = "page"
      · rw [if_pos g1]
        have hTag : isTag line "title" = false := by
          unfold isTag; rw [hm]; simp [g1]
        exact Or.inl ⟨_, rfl, fun hs => hs, fun hc => absurd hc (by simp [hTag])⟩
      · rw [if_neg g1]
        by_cases g2 : m.group2 = "title"
        · rw [if_pos g2]
          by_cases gi : ¬hasOutput = true ∧ st.templateNamespace = ""
          · rw [if_pos gi]
            by_cases gc : pyFind m.group3 ':' > 1
            · rw [if_pos gc]
              exact Or.inl ⟨_, rfl, fun _ => rfl, fun _ => rfl⟩
            · rw [if_neg gc]
              exact Or.inl ⟨_, rfl, fun _ => rfl, fun _ => rfl⟩
          · rw [if_neg gi]
            exact Or.inl ⟨_, rfl, fun _ => rfl, fun _ => rfl⟩
        · rw [if_neg g2]
          have hTag : isTag line "title" = false := by
            unfold isTag; rw [hm]; simpa using g2
          by_cases g3 : m.group2 = "text"
          · rw [if_pos g3]
            exact Or.inl ⟨_, rfl, fun hs => hs, fun hc => absurd hc (by simp [hTag])⟩
          · rw [if_neg g3]
            by_cases g4 : m.group2 = "/text"
            · rw [if_pos g4]
              exact Or.inl ⟨_, rfl, fun hs => hs,
                fun hc => absurd hc (by simp [hTag])⟩
            · rw [if_neg g4]
              by_cases g5 : st.inText = true
              · rw [if_pos g5]
                exact Or.inl ⟨_, rfl, fun hs => hs,
                  fun hc => absurd hc (by simp [hTag])⟩
              · rw [if_neg g5]
                by_cases g6 : m.group2 = "/page"
                · rw [if_pos g6]
                  cases ht : st.title with
                  | none =>
                    refine Or.inr ⟨rfl, by simpa using g5, rfl, ?_⟩
                    unfold isTag
                    rw [hm]
                    simp [g6]
                  | some t =>
                    dsimp only
                    by_cases gs : py_startswith t st.templatePrefix = true
                    · rw [if_pos gs]
                      by_cases go : hasOutput = true ∧
                          (py_startswith t st.templatePrefix = true ∨
                           py_startswith t st.modulePrefix = true)
                      · rw [if_pos go]
                        exact Or.inl ⟨_, rfl, fun _ => by simp [ht],
                          fun hc => absurd hc (by simp [hTag])⟩
                      · rw [if_neg go]
                        exact Or.inl ⟨_, rfl, fun _ => by simp [ht],
                          fun hc => absurd hc (by simp [hTag])⟩
                    · rw [if_neg gs]
                      by_cases go : hasOutput = true ∧
                          (py_startswith t st.templatePrefix = true ∨
                           py_startswith t st.modulePrefix = true)
                      · rw [if_pos go]
                        exact Or.inl ⟨_, rfl, fun _ => by simp [ht],
                          fun hc => absurd hc (by simp [hTag])⟩
                      · rw [if_neg go]
                        exact Or.inl ⟨_, rfl, fun _ => by simp [ht],
                          fun hc => absurd hc (by simp [hTag])⟩
                · rw [if_neg g6]
                  exact Or.inl ⟨_, rfl, fun hs => hs,
                    fun hc => absurd hc (by simp [hTag])⟩

/-- Inversion for a NameError raise in load_templates. -/
theorem load_step_none_inv {hasOutput : Bool} {st : LoadState} {line : String}
    (h : load_step hasOutput st line = none) :
    st.inText = false ∧ st.title = none ∧ isTag line "/page" = true := by
  rcases load_step_total hasOutput st line with ⟨st'', heq, -⟩ | ⟨-, hrest⟩
  · rw [h] at heq
    exact absurd heq (by simp)
  · exact hrest

/-- Title tracking for a successful load_templates iteration. -/
theorem load_step_some_title {hasOutput : Bool} {st : LoadState} {line : String}
    {st' : LoadState} (h : load_step hasOutput st line = some st') :
    (st.title.isSome → st'.title.isSome) ∧
    (isTag line "title" = true → st'.title.isSome) := by
  rcases load_step_total hasOutput st line with ⟨st'', heq, hrest⟩ | ⟨heq, -⟩
  · rw [h] at heq
    obtain rfl := Option.some.inj heq
    exact hrest
  · rw [h] at heq
    exact absurd heq (by simp)

/-- The load_templates loop body raises on a `/page` line reached outside a
text element with `title` still unassigned. -/
theorem load_step_crash (hasOutput : Bool) (st : LoadState)
    {line : String} {m : TagMatch}
    (hm : tagRE_search line = some m) (h2 : m.group2 = "/page")
    (hT : st.inText = false) (ht : st.title = none) :
    load_step hasOutput st line = none := by
  unfold load_step
  rw [hasLt_of_tagSearch hm]
  rw [if_neg (by simp), hm]
  dsimp only
  rw [if_neg (by simp [h2]), if_neg (by simp [h2]), if_neg (by simp [h2]),
      if_neg (by simp [h2]), if_neg (by simp [hT]), if_pos h2, ht]

/-! ## Run-level lemmas for the Template Collector -/

/-- Splitting a load_templates run at a list append. -/
theorem load_templates_aux_append (hasOutput : Bool) (l₁ l₂ : List String) :
    ∀ st : LoadState, load_templates_aux hasOutput st (l₁ ++ l₂) =
      match load_templates_aux hasOutput st l₁ with
      | none => none
      | some st₁ => load_templates_aux hasOutput st₁ l₂ := by
  induction l₁ with
  | nil => intro st; rfl
  | cons l ls ih =>
    intro st
    simp only [List.cons_append, load_templates_aux]
    cases load_step hasOutput st l with
    | none => rfl
    | some st' => exact ih st'

/-- Once `title` is assigned load_templates can no longer raise. -/
theorem load_no_crash_of_title (hasOutput : Bool) (ls : List String) :
    ∀ st : LoadState, st.title.isSome →
      (load_templates_aux hasOutput st ls).isSome := by
  induction ls with
  | nil => intro st _; simp [load_templates_aux]
  | cons l ls ih =>
    intro st hs
    simp only [load_templates_aux]
    cases hst : load_step hasOutput st l with
    | none =>
      obtain ⟨-, ht, -⟩ := load_step_none_inv hst
      rw [ht] at hs
      simp at hs
    | some st' => exact ih st' ((load_step_some_title hst).1 hs)

/-- A load_templates run over lines none of which matches `/page` cannot
raise. -/
theorem load_no_crash_of_no_pageclose (hasOutput : Bool) (ls : List String)
    (hnp : ∀ l ∈ ls, isTag l "/page" = false) :
    ∀ st : LoadState, (load_templates_aux hasOutput st ls).isSome := by
  induction ls with
  | nil => intro st; simp [load_templates_aux]
  | cons l ls ih =>
    intro st
    simp only [load_templates_aux]
    cases hst : load_step hasOutput st l with
    | none =>
      obtain ⟨-, -, hp⟩ := load_step_none_inv hst
      rw [hnp l (by simp)] at hp
      exact absurd hp (by simp)
    | some st' => exact ih (fun x hx => hnp x (by simp [hx])) st'

/-- A positive isTag test names the scanner's match. -/
theorem isTag_exists {line tag : String} (h : isTag line tag = true) :
    ∃ m, tagRE_search line = some m ∧ m.group2 = tag := by
  unfold isTag at h
  cases hm : tagRE_search line with
  | none => rw [hm] at h; exact absurd h (by simp)
  | some m =>
    rw [hm] at h
    exact ⟨m, rfl, by simpa using h⟩

/-! ## Claim C10: the uninitialized title local -/

/-- Claim C10 (amended): both collectors read `title` in their `/page`
branch without initializing it; if some `title` line is matched before the
first line matching `/page`, the read is always defined and neither
generator raises; and when a run reaches a `/page`-matched line outside an
open text element with `title` still unassigned, evaluation raises NameError
(the original claim lacked the "outside an open text element" caveat: a
`/page` line consumed inside an open text element is appended to the buffer
and reads nothing). -/
theorem claim_C10_title_uninitialized :
    (∀ (ctx : CollectCtx) (xs : List String) (tl : String) (ys : List String),
      isTag tl "title" = true → (∀ x ∈ xs, isTag x "/page" = false) →
      (collect_pages ctx (xs ++ tl :: ys)).2.isSome) ∧
    (∀ (hasOutput : Bool) (tn tp mn : String) (xs : List String) (tl : String)
        (ys : List String),
      isTag tl "title" = true → (∀ x ∈ xs, isTag x "/page" = false) →
      (load_templates hasOutput tn tp mn (xs ++ tl :: ys)).isSome) ∧
    (∀ (ctx : CollectCtx) (xs : List String) (l : String) (ys : List String)
        (recs : List PageRecord) (st : CollectState),
      collect_pages_aux ctx collectInit xs = (recs, some st) →
      st.title = none → st.inText = false → isTag l "/page" = true →
      (collect_pages ctx (xs ++ l :: ys)).2 = none) ∧
    (∀ (hasOutput : Bool) (tn tp mn : String) (xs : List String) (l : String)
        (ys : List String) (st : LoadState),
      load_templates_aux hasOutput (loadInit tn tp mn) xs = some st →
      st.title = none → st.inText = false → isTag l "/page" = true →
      load_templates hasOutput tn tp mn (xs ++ l :: ys) = none) := by
  refine ⟨?_, ?_, ?_, ?_⟩
  · intro ctx xs tl ys htl hxs
    rw [collect_pages, collect_pages_aux_append]
    have h1 := collect_no_crash_of_no_pageclose ctx xs hxs collectInit
    obtain ⟨st₁, hst₁⟩ := Option.isSome_iff_exists.mp h1
    dsimp only
    rw [hst₁]
    simp only [collect_pages_aux]
    cases hstep : collect_step ctx st₁ tl with
    | none =>
      obtain ⟨-, -, hp⟩ := collect_step_none_inv hstep
      obtain ⟨m, hm, hm2⟩ := isTag_exists hp
      obtain ⟨m', hm', hm2'⟩ := isTag_exists htl
      rw [hm] at hm'
      obtain rfl := Option.some.inj hm'
      rw [hm2] at hm2'
      exact absurd hm2' (by decide)
    | some p =>
      obtain ⟨st₂, out⟩ := p
      have h2 := (collect_step_some_inv hstep).2.2.1 htl
      simpa using collect_no_crash_of_title ctx ys st₂ h2
  · intro hasOutput tn tp mn xs tl ys htl hxs
    rw [load_templates, load_templates_aux_append]
    have h1 := load_no_crash_of_no_pageclose hasOutput xs hxs (loadInit tn tp mn)
    obtain ⟨st₁, hst₁⟩ := Option.isSome_iff_exists.mp h1
    rw [hst₁]
    simp only [load_templates_aux]
    cases hstep : load_step hasOutput st₁ tl with
    | none =>
      obtain ⟨-, -, hp⟩ := load_step_none_inv hstep
      obtain ⟨m, hm, hm2⟩ := isTag_exists hp
      obtain ⟨m', hm', hm2'⟩ := isTag_exists htl
      rw [hm] at hm'
      obtain rfl := Option.some.inj hm'
      rw [hm2] at hm2'
      exact absurd hm2' (by decide)
    | some st₂ =>
      exact load_no_crash_of_title hasOutput ys st₂ ((load_step_some_title hstep).2 htl)
  · intro ctx xs l ys recs st haux ht hT hp
    rw [collect_pages, collect_pages_aux_append, haux]
    dsimp only
    simp only [collect_pages_aux]
    obtain ⟨m, hm, hm2⟩ := isTag_exists hp
    rw [collect_step_crash ctx st hm hm2 hT ht]
  · intro hasOutput tn tp mn xs l ys st haux ht hT hp
    rw [load_templates, load_templates_aux_append, haux]
    simp only [load_templates_aux]
    obtain ⟨m, hm, hm2⟩ := isTag_exists hp
    rw [load_step_crash hasOutput st hm hm2 hT ht]

/-- Claim C10 as stated is false in its failure direction: in the input
whose lines are `<text a>` then `</page>`, the first `/page` tag precedes
any `title` tag, yet evaluation succeeds — the `/page` line arrives while a
text element is open, so it is appended to the page buffer and the `title`
read is never reached. -/
theorem claim_C10_counterexample :
    isTag "<text a>\n" "title" = false ∧ isTag "<text a>\n" "/page" = false ∧
    isTag "</page>\n" "/page" = true ∧
    (collect_pages ⟨[], "Template"⟩ ["<text a>\n", "</page>\n"]).2.isSome = true ∧
    (load_templates false "Template" "Template:" "Module"
      ["<text a>\n", "</page>\n"]).isSome = true :=
  ⟨by decide, by decide, by decide, by decide, by decide⟩

theorem claim_C10_title_uninitialized_witness :
    (collect_pages ⟨[], "T"⟩ ([] ++ "<title>A</title>\n" :: ["</page>\n"])).2.isSome ∧
    (collect_pages ⟨[], "T"⟩ ([] ++ "</page>\n" :: [])).2 = none :=
  ⟨claim_C10_title_uninitialized.1 ⟨[], "T"⟩ [] "<title>A</title>\n" ["</page>\n"]
      (by decide) (by simp),
   claim_C10_title_uninitialized.2.2.1 ⟨[], "T"⟩ [] "</page>\n" [] [] collectInit
      rfl rfl rfl (by decide)⟩

/-! ## List helpers for symbolic-payload lines -/

/-- Characters free of markup and newlines, as template titles and body text
in a well-formed dump are. -/
def goodChars (s : List Char) : Prop := ∀ c ∈ s, c ≠ '<' ∧ c ≠ '>' ∧ c ≠ '\n'

theorem takeWhile_append_all {p : Char → Bool} {l₁ : List Char} (l₂ : List Char)
    (h : ∀ c ∈ l₁, p c = true) :
    (l₁ ++ l₂).takeWhile p = l₁ ++ l₂.takeWhile p := by
  induction l₁ with
  | nil => rfl
  | cons c cs ih =>
    simp only [List.cons_append, List.takeWhile_cons, h c (by simp), if_true]
    rw [ih (fun x hx => h x (by simp [hx]))]

theorem dropWhile_append_all {p : Char → Bool} {l₁ : List Char} (l₂ : List Char)
    (h : ∀ c ∈ l₁, p c = true) :
    (l₁ ++ l₂).dropWhile p = l₂.dropWhile p := by
  induction l₁ with
  | nil => rfl
  | cons c cs ih =>
    simp only [List.cons_append, List.dropWhile_cons, h c (by simp), if_true]
    exact ih (fun x hx => h x (by simp [hx]))

theorem takeWhile_all {p : Char → Bool} {l : List Char}
    (h : ∀ c ∈ l, p c = true) : l.takeWhile p = l := by
  have := takeWhile_append_all (p := p) [] h
  simpa using this

theorem dropWhile_all {p : Char → Bool} {l : List Char}
    (h : ∀ c ∈ l, p c = true) : l.dropWhile p = [] := by
  have := dropWhile_append_all (p := p) [] h
  simpa using this

theorem isPrefixOf_append_self (l₁ l₂ : List Char) :
    l₁.isPrefixOf (l₁ ++ l₂) = true := by
  induction l₁ with
  | nil => cases l₂ <;> rfl
  | cons c cs ih => simp [List.isPrefixOf, ih]

/-- Building a string from concatenated character data is string append. -/
theorem mk_data_append (a b : String) : (⟨a.data ++ b.data⟩ : String) = a ++ b := by
  rw [← String.data_append]

/-! ## Scanning lines with symbolic payloads -/

/-- The scan walks over a bracket-free, newline-free prefix, accumulating it
as pending group-1 text. -/
theorem tagSearchAux_clean (l₁ : List Char)
    (h : ∀ c ∈ l₁, c ≠ '<' ∧ c ≠ '\n') :
    ∀ (pre l₂ : List Char),
      tagSearchAux pre (l₁ ++ l₂) = tagSearchAux (l₁.reverse ++ pre) l₂ := by
  induction l₁ with
  | nil => intro pre l₂; rfl
  | cons c cs ih =>
    intro pre l₂
    have hc := h c (by simp)
    rw [List.cons_append, tagSearchAux, if_neg hc.1, if_neg hc.2,
        ih (fun x hx => h x (by simp [hx])) (c :: pre) l₂]
    simp

/-- Unfolding the scan at an angle bracket. -/
theorem tagSearchAux_lt (pre rest : List Char) :
    tagSearchAux pre ('<' :: rest) =
      match tagMatchAt rest with
      | some (tag, after) =>
        some ⟨⟨pre.reverse⟩, ⟨tag⟩, ⟨after.takeWhile (fun c => c != '<')⟩,
              (group4At (after.dropWhile (fun c => c != '<'))).map (fun g => ⟨g⟩)⟩
      | none => tagSearchAux ('<' :: pre) rest := by
  rw [tagSearchAux, if_pos rfl]

/-- Scanning a text-open line `w ++ "<text>" ++ b ++ "\n"` with a clean
leading prefix `w` and clean body `b`: group 2 is `text`, group 3 is the
whole remainder `b ++ "\n"`, and there is no trailing tag. -/
theorem tag_textOpen (w : List Char) (hw : ∀ c ∈ w, c ≠ '<' ∧ c ≠ '\n')
    (b : String) (hb : goodChars b.data) :
    tagRE_search ⟨w ++ ("<text>".data ++ (b.data ++ ['\n']))⟩ =
      some ⟨⟨w⟩, "text", ⟨b.data ++ ['\n']⟩, none⟩ := by
  unfold tagRE_search
  show tagSearchAux [] (w ++ ("<text>".data ++ (b.data ++ ['\n']))) = _
  rw [tagSearchAux_clean w hw]
  show tagSearchAux (w.reverse ++ [])
    ('<' :: ('t' :: 'e' :: 'x' :: 't' :: '>' :: (b.data ++ ['\n']))) = _
  rw [tagSearchAux_lt]
  have hmatch : tagMatchAt ('t' :: 'e' :: 'x' :: 't' :: '>' :: (b.data ++ ['\n'])) =
      some ("text".data, b.data ++ ['\n']) := rfl
  rw [hmatch]
  dsimp only
  have hall : ∀ c ∈ b.data ++ ['\n'], (c != '<') = true := by
    intro c hc
    rcases List.mem_append.mp hc with hc | hc
    · simpa using (hb c hc).1
    · simp at hc
      simp [hc]
  rw [takeWhile_all hall, dropWhile_all hall]
  simp [group4At]

/-- Scanning a text-close line `pre ++ "</text>\n"` with clean leading text
`pre`: group 1 is `pre`, group 2 is `/text`, group 3 is the newline. -/
theorem tag_textClose (pre : List Char) (hpre : ∀ c ∈ pre, c ≠ '<' ∧ c ≠ '\n') :
    tagRE_search ⟨pre ++ "</text>\n".data⟩ = some ⟨⟨pre⟩, "/text", "\n", none⟩ := by
  unfold tagRE_search
  show tagSearchAux [] (pre ++ "</text>\n".data) = _
  rw [tagSearchAux_clean pre hpre]
  show tagSearchAux (pre.reverse ++ [])
    ('<' :: ('/' :: 't' :: 'e' :: 'x' :: 't' :: '>' :: '\n' :: [])) = _
  rw [tagSearchAux_lt]
  have hmatch : tagMatchAt ('/' :: 't' :: 'e' :: 'x' :: 't' :: '>' :: '\n' :: []) =
      some ("/text".data, ['\n']) := rfl
  rw [hmatch]
  dsimp only
  simp [group4At]

/-! ## Positive equations for the load_templates loop body -/

theorem load_step_fast {hasOutput : Bool} {st : LoadState} {line : String}
    (h : hasLt line = false) :
    load_step hasOutput st line =
      some (if st.inText then {st with page := st.page ++ [line]} else st) := by
  unfold load_step
  rw [h]
  simp

theorem load_step_tag_page {hasOutput : Bool} (st : LoadState)
    {line : String} {m : TagMatch}
    (hm : tagRE_search line = some m) (h2 : m.group2 = "page") :
    load_step hasOutput st line = some {st with page := []} := by
  unfold load_step
  rw [hasLt_of_tagSearch hm]
  rw [if_neg (by simp), hm]
  dsimp only
  rw [if_pos h2]

theorem load_step_tag_title {hasOutput : Bool} (st : LoadState)
    {line : String} {m : TagMatch}
    (hm : tagRE_search line = some m) (h2 : m.group2 = "title")
    (hni : ¬(¬hasOutput = true ∧ st.templateNamespace = "")) :
    load_step hasOutput st line = some {st with title := some m.group3} := by
  unfold load_step
  rw [hasLt_of_tagSearch hm]
  rw [if_neg (by simp), hm]
  dsimp only
  rw [if_neg (by simp [h2]), if_pos h2]
  rw [if_neg hni]

theorem load_step_tag_text {hasOutput : Bool} (st : LoadState)
    {line : String} {m : TagMatch}
    (hm : tagRE_search line = some m) (h2 : m.group2 = "text") :
    load_step hasOutput st line =
      some {st with inText := !m.group4.isSome, page := st.page ++ [m.group3]} := by
  unfold load_step
  rw [hasLt_of_tagSearch hm]
  rw [if_neg (by simp), hm]
  dsimp only
  rw [if_neg (by simp [h2]), if_neg (by simp [h2]), if_pos h2]

theorem load_step_tag_textclose {hasOutput : Bool} (st : LoadState)
    {line : String} {m : TagMatch}
    (hm : tagRE_search line = some m) (h2 : m.group2 = "/text") :
    load_step hasOutput st line =
      some {st with
             inText := false,
             page := if m.group1 ≠ "" then st.page ++ [m.group1] else st.page} := by
  unfold load_step
  rw [hasLt_of_tagSearch hm]
  rw [if_neg (by simp), hm]
  dsimp only
  rw [if_neg (by simp [h2]), if_neg (by simp [h2]), if_neg (by simp [h2]),
      if_pos h2]

theorem load_step_tag_other {hasOutput : Bool} (st : LoadState)
    {line : String} {m : TagMatch}
    (hm : tagRE_search line = some m)
    (h1 : m.group2 ≠ "page") (h2 : m.group2 ≠ "title") (h3 : m.group2 ≠ "text")
    (h4 : m.group2 ≠ "/text") (h5 : m.group2 ≠ "/page")
    (hT : st.inText = false) :
    load_step hasOutput st line = some st := by
  unfold load_step
  rw [hasLt_of_tagSearch hm]
  rw [if_neg (by simp), hm]
  dsimp only
  rw [if_neg h1, if_neg h2, if_neg h3, if_neg h4, if_neg (by simp [hT]),
      if_neg h5]

/-- The `/page` step of the first, mirror-writing pass on a template page:
the buffer is stored under the title and the page is serialized to the
mirror output. -/
theorem load_step_pageclose_out (st : LoadState)
    {line : String} {m : TagMatch} {tt : String}
    (hm : tagRE_search line = some m) (h2 : m.group2 = "/page")
    (hT : st.inText = false) (ht : st.title = some tt)
    (hsw : py_startswith tt st.templatePrefix = true) :
    load_step true st line =
      some {st with
             store := define_template st.store tt st.page,
             templates := st.templates + 1,
             output := st.output ++
               (["<page>\n", "   <title>" ++ tt ++ "</title>\n",
                 "   <ns>10</ns>\n", "   <text>"] ++ st.page ++
                ["   </text>\n", "</page>\n"]),
             page := [],
             articles := st.articles + 1} := by
  unfold load_step
  rw [hasLt_of_tagSearch hm]
  rw [if_neg (by simp), hm]
  dsimp only
  rw [if_neg (by simp [h2]), if_neg (by simp [h2]), if_neg (by simp [h2]),
      if_neg (by simp [h2]), if_neg (by simp [hT]), if_pos h2, ht]
  dsimp only
  rw [if_pos hsw, if_pos ⟨rfl, Or.inl hsw⟩]

/-- The `/page` step of a later, mirror-reading pass on a template page:
the buffer is stored under the title and nothing is written. -/
theorem load_step_pageclose_noout (st : LoadState)
    {line : String} {m : TagMatch} {tt : String}
    (hm : tagRE_search line = some m) (h2 : m.group2 = "/page")
    (hT : st.inText = false) (ht : st.title = some tt)
    (hsw : py_startswith tt st.templatePrefix = true) :
    load_step false st line =
      some {st with
             store := define_template st.store tt st.page,
             templates := st.templates + 1,
             page := [],
             articles := st.articles + 1} := by
  unfold load_step
  rw [hasLt_of_tagSearch hm]
  rw [if_neg (by simp), hm]
  dsimp only
  rw [if_neg (by simp [h2]), if_neg (by simp [h2]), if_neg (by simp [h2]),
      if_neg (by simp [h2]), if_neg (by simp [hT]), if_pos h2, ht]
  dsimp only
  rw [if_pos hsw, if_neg (by simp)]

/-- One resolved loop iteration inside a run. -/
theorem load_aux_cons {hasOutput : Bool} {st : LoadState} {l : String}
    {ls : List String} {st' : LoadState}
    (hstep : load_step hasOutput st l = some st') :
    load_templates_aux hasOutput st (l :: ls) =
      load_templates_aux hasOutput st' ls := by
  simp only [load_templates_aux]
  rw [hstep]

/-- Bracket-free lines arriving inside an open text element are appended
verbatim to the page buffer. -/
theorem load_aux_mids {hasOutput : Bool} (mids : List String)
    (hm : ∀ x ∈ mids, hasLt x = false) :
    ∀ (pg : List String) (ttl : Option String) (tm ar : Nat) (tn tp mp : String)
      (str : List (String × List String)) (out : List String)
      (rest : List String),
      load_templates_aux hasOutput ⟨pg, true, ttl, tm, ar, tn, tp, mp, str, out⟩
          (mids ++ rest) =
        load_templates_aux hasOutput
          ⟨pg ++ mids, true, ttl, tm, ar, tn, tp, mp, str, out⟩ rest := by
  induction mids with
  | nil =>
    intro pg ttl tm ar tn tp mp str out rest
    rw [List.nil_append, List.append_nil]
  | cons x xs ih =>
    intro pg ttl tm ar tn tp mp str out rest
    rw [List.cons_append, load_aux_cons (load_step_fast (hm x (by simp)))]
    rw [if_pos rfl]
    show load_templates_aux hasOutput
        ⟨pg ++ [x], true, ttl, tm, ar, tn, tp, mp, str, out⟩ (xs ++ rest) = _
    rw [ih (fun z hz => hm z (by simp [hz])) (pg ++ [x]) ttl tm ar tn tp mp str out rest]
    have hpg : (pg ++ [x]) ++ xs = pg ++ x :: xs := by simp
    rw [hpg]

/-! ## Reading the mirror file back line by line -/

theorem splitLinesAux_noNl (l₁ : List Char) (h : ∀ c ∈ l₁, c ≠ '\n') :
    ∀ (acc l₂ : List Char),
      splitLinesAux acc (l₁ ++ l₂) = splitLinesAux (l₁.reverse ++ acc) l₂ := by
  induction l₁ with
  | nil => intro acc l₂; rfl
  | cons c cs ih =>
    intro acc l₂
    rw [List.cons_append, splitLinesAux, if_neg (h c (by simp)),
        ih (fun x hx => h x (by simp [hx])) (c :: acc) l₂]
    simp

theorem splitLinesAux_nlcons (acc l₂ : List Char) :
    splitLinesAux acc ('\n' :: l₂) = (acc.reverse ++ ['\n']) :: splitLinesAux [] l₂ := by
  rw [splitLinesAux, if_pos rfl]

/-- Reading back one newline-terminated segment. -/
theorem splitLines_lineseg (X : List Char) (hX : ∀ c ∈ X, c ≠ '\n')
    (R : List Char) :
    splitLinesAux [] ((X ++ ['\n']) ++ R) = (X ++ ['\n']) :: splitLinesAux [] R := by
  rw [List.append_assoc, splitLinesAux_noNl X hX [] (['\n'] ++ R),
      show ['\n'] ++ R = '\n' :: R from rfl, splitLinesAux_nlcons]
  simp

/-- Newline-terminated middle lines read back unchanged. -/
theorem splitLines_mids (mids : List String)
    (hm : ∀ x ∈ mids, ∃ y, x.data = y ++ ['\n'] ∧ ∀ c ∈ y, c ≠ '\n') :
    ∀ R : List Char,
      splitLinesAux [] ((mids.map String.data).flatten ++ R) =
        mids.map String.data ++ splitLinesAux [] R := by
  induction mids with
  | nil => intro R; simp
  | cons x xs ih =>
    intro R
    obtain ⟨y, hy, hyn⟩ := hm x (by simp)
    simp only [List.map_cons, List.flatten_cons]
    have regroup : (x.data ++ (List.map String.data xs).flatten) ++ R =
        (y ++ ['\n']) ++ ((List.map String.data xs).flatten ++ R) := by
      rw [hy]
      simp
    rw [List.append_assoc, ← List.append_assoc x.data, regroup,
        splitLines_lineseg y hyn, ih (fun z hz => hm z (by simp [hz])), hy]
    simp

/-- Structure eta for strings. -/
theorem mk_data (s : String) : (⟨s.data⟩ : String) = s := rfl

/-- Reading back the mirror serialization of one template page: the
unterminated `   <text>` marker merges with the first body line, and the
closing `   </text>` marker's indentation merges into the last body segment
`r`, which carried no newline of its own. -/
theorem splitLines_mirror (b r : String) (mids : List String)
    (hb : goodChars b.data) (hr : goodChars r.data)
    (hm : ∀ x ∈ mids, ∃ y, x.data = y ++ ['\n'] ∧ ∀ c ∈ y, c ≠ '\n') :
    splitLines (joinAll
      (["<page>\n", "   <title>Template:Foo</title>\n", "   <ns>10</ns>\n",
        "   <text>"] ++ ((⟨b.data ++ ['\n']⟩ : String) :: (mids ++ [r])) ++
       ["   </text>\n", "</page>\n"])) =
      ["<page>\n", "   <title>Template:Foo</title>\n", "   <ns>10</ns>\n",
       ⟨"   ".data ++ ("<text>".data ++ (b.data ++ ['\n']))⟩] ++ mids ++
      [⟨(r.data ++ "   ".data) ++ "</text>\n".data⟩, "</page>\n"] := by
  unfold joinAll splitLines
  simp only [List.cons_append, List.nil_append, List.map_cons, List.map_append,
    List.flatten_cons, List.flatten_append, List.append_assoc, List.append_nil]
  have eA : ∀ R : List Char, splitLinesAux []
      ('<' :: 'p' :: 'a' :: 'g' :: 'e' :: '>' :: '\n' ::
       ' ' :: ' ' :: ' ' :: '<' :: 't' :: 'i' :: 't' :: 'l' :: 'e' :: '>' ::
       'T' :: 'e' :: 'm' :: 'p' :: 'l' :: 'a' :: 't' :: 'e' :: ':' :: 'F' :: 'o' :: 'o' ::
       '<' :: '/' :: 't' :: 'i' :: 't' :: 'l' :: 'e' :: '>' :: '\n' ::
       ' ' :: ' ' :: ' ' :: '<' :: 'n' :: 's' :: '>' :: '1' :: '0' ::
       '<' :: '/' :: 'n' :: 's' :: '>' :: '\n' ::
       ' ' :: ' ' :: ' ' :: '<' :: 't' :: 'e' :: 'x' :: 't' :: '>' :: R) =
      "<page>\n".data :: "   <title>Template:Foo</title>\n".data ::
      "   <ns>10</ns>\n".data ::
      splitLinesAux ['>','t','x','e','t','<',' ',' ',' '] R := fun R => rfl
  rw [eA]
  rw [splitLinesAux_noNl b.data (fun c hc => (hb c hc).2.2)]
  rw [splitLinesAux_nlcons]
  rw [splitLines_mids mids hm]
  rw [splitLinesAux_noNl r.data (fun c hc => (hr c hc).2.2)]
  have eC : ∀ (acc R : List Char), splitLinesAux acc
      (' ' :: ' ' :: ' ' :: '<' :: '/' :: 't' :: 'e' :: 'x' :: 't' :: '>' :: '\n' :: R) =
      (('>' :: 't' :: 'x' :: 'e' :: 't' :: '/' :: '<' :: ' ' :: ' ' :: ' ' :: acc).reverse
        ++ ['\n']) ::
        splitLinesAux [] R := fun acc R => rfl
  rw [eC]
  simp only [List.map_nil, List.flatten_nil, List.append_nil]
  have eD : splitLinesAux [] ('<' :: '/' :: 'p' :: 'a' :: 'g' :: 'e' :: '>' :: '\n' :: []) =
      ["</page>\n".data] := rfl
  rw [eD]
  simp [mk_data, List.map_map, Function.comp, List.append_assoc]
  have hcomp : ((fun l => (⟨l⟩ : String)) ∘ String.data) = id := funext fun s => rfl
  rw [hcomp, List.map_id]

/-! ## Claim C4: the template mirror round trip -/

/-- A well-formed source template page with a multi-line text element:
first body line `b`, verbatim middle lines `mids`, and a final fragment `r`
closed by `</text>` on the same line (the lines are built directly from
character data; they spell `<page>`, `  <title>Template:Foo</title>`,
`  <text>` followed by `b`, the middle lines, `r` followed by `</text>`,
and `</page>`). -/
def origPage (b r : String) (mids : List String) : List String :=
  ["<page>\n", "  <title>Template:Foo</title>\n",
   ⟨"  ".data ++ ("<text>".data ++ (b.data ++ ['\n']))⟩] ++ mids ++
  [⟨r.data ++ "</text>\n".data⟩, "</page>\n"]

/-- The state of the first, mirror-writing load_templates pass over
`origPage`. -/
def pass1State (b r : String) (mids : List String) : LoadState :=
  ⟨[], false, some "Template:Foo", 1, 1, "Template", "Template:",
   "Module" ++ ":",
   [("Template:Foo", (⟨b.data ++ ['\n']⟩ : String) :: (mids ++ [r]))],
   ["<page>\n", "   <title>Template:Foo</title>\n", "   <ns>10</ns>\n",
    "   <text>"] ++ ((⟨b.data ++ ['\n']⟩ : String) :: (mids ++ [r])) ++
   ["   </text>\n", "</page>\n"]⟩

/-- The state of a later load_templates pass over the mirror file: the
stored body's final segment has picked up the closing marker's three-space
indentation. -/
def pass2State (b r : String) (mids : List String) : LoadState :=
  ⟨[], false, some "Template:Foo", 1, 1, "Template", "Template:",
   "Module" ++ ":",
   [("Template:Foo", (⟨b.data ++ ['\n']⟩ : String) ::
     (mids ++ [(⟨r.data ++ "   ".data⟩ : String)]))], []⟩

/-- Result of the mirror-writing pass over a source template page. -/
theorem load_run_orig (b r : String) (mids : List String)
    (hb : goodChars b.data) (hr : goodChars r.data) (hrne : r ≠ "")
    (hmlt : ∀ x ∈ mids, hasLt x = false) :
    load_templates true "Template" "Template:" "Module" (origPage b r mids) =
      some (pass1State b r mids) := by
  unfold pass1State
  unfold load_templates origPage loadInit
  show load_templates_aux true
      ⟨[], false, none, 0, 0, "Template", "Template:", "Module" ++ ":", [], []⟩
      ("<page>\n" :: "  <title>Template:Foo</title>\n" ::
       (⟨"  ".data ++ ("<text>".data ++ (b.data ++ ['\n']))⟩ : String) ::
       (mids ++ ((⟨r.data ++ "</text>\n".data⟩ : String) :: "</page>\n" :: []))) = _
  have t1 : tagRE_search "<page>\n" = some ⟨"", "page", "\n", none⟩ := by decide
  have t2 : tagRE_search "  <title>Template:Foo</title>\n" =
      some ⟨"  ", "title", "Template:Foo", some "</title>"⟩ := by decide
  have t6 : tagRE_search "</page>\n" = some ⟨"", "/page", "\n", none⟩ := by decide
  rw [load_aux_cons (load_step_tag_page _ t1 rfl)]
  rw [load_aux_cons (load_step_tag_title _ t2 rfl (by simp))]
  rw [load_aux_cons (load_step_tag_text _
        (tag_textOpen "  ".data (by decide) b hb) rfl)]
  show load_templates_aux true
      ⟨[] ++ [(⟨b.data ++ ['\n']⟩ : String)], true, some "Template:Foo", 0, 0,
       "Template", "Template:", "Module" ++ ":", [], []⟩
      (mids ++ ((⟨r.data ++ "</text>\n".data⟩ : String) :: "</page>\n" :: [])) = _
  rw [load_aux_mids mids hmlt]
  rw [load_aux_cons (load_step_tag_textclose _
        (tag_textClose r.data (fun c hc => ⟨(hr c hc).1, (hr c hc).2.2⟩)) rfl)]
  rw [if_pos (show (⟨r.data⟩ : String) ≠ "" from hrne)]
  show load_templates_aux true
      ⟨(⟨b.data ++ ['\n']⟩ : String) :: (mids ++ [(⟨r.data⟩ : String)]), false,
       some "Template:Foo", 0, 0, "Template", "Template:", "Module" ++ ":", [], []⟩
      ("</page>\n" :: []) = _
  rw [load_aux_cons (load_step_pageclose_out
      ⟨(⟨b.data ++ ['\n']⟩ : String) :: (mids ++ [(⟨r.data⟩ : String)]), false,
       some "Template:Foo", 0, 0, "Template", "Template:", "Module" ++ ":", [], []⟩
      t6 rfl rfl rfl
      (show py_startswith "Template:Foo" "Template:" = true by decide))]
  rfl

/-- Result of re-collecting the page from the mirror file's lines. -/
theorem load_run_mirror (b r : String) (mids : List String)
    (hb : goodChars b.data) (hr : goodChars r.data)
    (hmlt : ∀ x ∈ mids, hasLt x = false) :
    load_templates false "Template" "Template:" "Module"
      (["<page>\n", "   <title>Template:Foo</title>\n", "   <ns>10</ns>\n",
        ⟨"   ".data ++ ("<text>".data ++ (b.data ++ ['\n']))⟩] ++ mids ++
       [⟨(r.data ++ "   ".data) ++ "</text>\n".data⟩, "</page>\n"]) =
      some (pass2State b r mids) := by
  unfold pass2State
  unfold load_templates loadInit
  show load_templates_aux false
      ⟨[], false, none, 0, 0, "Template", "Template:", "Module" ++ ":", [], []⟩
      ("<page>\n" :: "   <title>Template:Foo</title>\n" :: "   <ns>10</ns>\n" ::
       (⟨"   ".data ++ ("<text>".data ++ (b.data ++ ['\n']))⟩ : String) ::
       (mids ++ ((⟨(r.data ++ "   ".data) ++ "</text>\n".data⟩ : String) ::
        "</page>\n" :: []))) = _
  have t1 : tagRE_search "<page>\n" = some ⟨"", "page", "\n", none⟩ := by decide
  have t2 : tagRE_search "   <title>Template:Foo</title>\n" =
      some ⟨"   ", "title", "Template:Foo", some "</title>"⟩ := by decide
  have t3 : tagRE_search "   <ns>10</ns>\n" =
      some ⟨"   ", "ns", "10", some "</ns>"⟩ := by decide
  have t6 : tagRE_search "</page>\n" = some ⟨"", "/page", "\n", none⟩ := by decide
  rw [load_aux_cons (load_step_tag_page _ t1 rfl)]
  show load_templates_aux false
      ⟨[], false, none, 0, 0, "Template", "Template:", "Module" ++ ":", [], []⟩ _ = _
  rw [load_aux_cons (load_step_tag_title
      ⟨[], false, none, 0, 0, "Template", "Template:", "Module" ++ ":", [], []⟩
      t2 rfl (by decide))]
  show load_templates_aux false
      ⟨[], false, some "Template:Foo", 0, 0, "Template", "Template:",
       "Module" ++ ":", [], []⟩ _ = _
  rw [load_aux_cons (load_step_tag_other
      ⟨[], false, some "Template:Foo", 0, 0, "Template", "Template:",
       "Module" ++ ":", [], []⟩
      t3 (by decide) (by decide) (by decide) (by decide) (by decide) rfl)]
  rw [load_aux_cons (load_step_tag_text _
        (tag_textOpen "   ".data (by decide) b hb) rfl)]
  show load_templates_aux false
      ⟨[] ++ [(⟨b.data ++ ['\n']⟩ : String)], true, some "Template:Foo", 0, 0,
       "Template", "Template:", "Module" ++ ":", [], []⟩
      (mids ++ ((⟨(r.data ++ "   ".data) ++ "</text>\n".data⟩ : String) ::
       "</page>\n" :: [])) = _
  rw [load_aux_mids mids hmlt]
  rw [load_aux_cons (load_step_tag_textclose _
        (tag_textClose (r.data ++ "   ".data) (fun c hc => by
          rcases List.mem_append.mp hc with hc | hc
          · exact ⟨(hr c hc).1, (hr c hc).2.2⟩
          · have hsp : c = ' ' := by simpa using hc
            simp [hsp])) rfl)]
  rw [if_pos (show (⟨r.data ++ "   ".data⟩ : String) ≠ "" from
        fun h => by simpa using congrArg String.data h)]
  show load_templates_aux false
      ⟨(⟨b.data ++ ['\n']⟩ : String) ::
        (mids ++ [(⟨r.data ++ "   ".data⟩ : String)]), false,
       some "Template:Foo", 0, 0, "Template", "Template:", "Module" ++ ":",
       [], []⟩ ("</page>\n" :: []) = _
  rw [load_aux_cons (load_step_pageclose_noout
      ⟨(⟨b.data ++ ['\n']⟩ : String) ::
        (mids ++ [(⟨r.data ++ "   ".data⟩ : String)]), false,
       some "Template:Foo", 0, 0, "Template", "Template:", "Module" ++ ":",
       [], []⟩
      t6 rfl rfl rfl
      (show py_startswith "Template:Foo" "Template:" = true by decide))]
  rfl

/-- Claim C4 (amended): re-collecting a template page from the mirror file
reproduces the stored body except for the mirror's own markup: the closing
`   </text>` marker is written directly after the final body segment, so the
re-collected body equals the original with the marker's three-space
indentation appended to the final segment.  Stated for well-formed template
pages: markup-free first line `b`, newline-terminated markup-free middle
lines, and a nonempty markup-free closing fragment `r`. -/
theorem claim_C4_mirror_roundtrip (b r : String) (mids : List String)
    (hb : goodChars b.data) (hr : goodChars r.data) (hrne : r ≠ "")
    (hmids : ∀ x ∈ mids, ∃ y, x = y ++ "\n" ∧ goodChars y.data) :
    load_templates true "Template" "Template:" "Module" (origPage b r mids) =
      some (pass1State b r mids) ∧
    (pass1State b r mids).store =
      [("Template:Foo", (b ++ "\n") :: (mids ++ [r]))] ∧
    load_templates false "Template" "Template:" "Module"
      (splitLines (joinAll (pass1State b r mids).output)) =
      some (pass2State b r mids) ∧
    (pass2State b r mids).store =
      [("Template:Foo", (b ++ "\n") :: (mids ++ [r ++ "   "]))] := by
  have hm1 : ∀ x ∈ mids, hasLt x = false := by
    intro x hx
    obtain ⟨y, hy, hgy⟩ := hmids x hx
    subst hy
    simp only [hasLt, String.data_append]
    rw [List.any_append]
    have h1 : y.data.any (fun c => c == '<') = false := by
      simp only [List.any_eq_false]
      intro c hc
      simpa using (hgy c hc).1
    rw [h1]
    decide
  have hm2 : ∀ x ∈ mids, ∃ y, x.data = y ++ ['\n'] ∧ ∀ c ∈ y, c ≠ '\n' := by
    intro x hx
    obtain ⟨y, hy, hgy⟩ := hmids x hx
    subst hy
    exact ⟨y.data, by rw [String.data_append], fun c hc => (hgy c hc).2.2⟩
  have c1 : (⟨b.data ++ ['\n']⟩ : String) = b ++ "\n" := by
    rw [show ['\n'] = "\n".data from rfl, mk_data_append]
  have c2 : (⟨r.data ++ "   ".data⟩ : String) = r ++ "   " := mk_data_append r "   "
  refine ⟨load_run_orig b r mids hb hr hrne hm1, by simp [pass1State, c1], ?_, by
    simp [pass2State, c1, c2]⟩
  show load_templates false "Template" "Template:" "Module"
      (splitLines (joinAll
        (["<page>\n", "   <title>Template:Foo</title>\n", "   <ns>10</ns>\n",
          "   <text>"] ++ ((⟨b.data ++ ['\n']⟩ : String) :: (mids ++ [r])) ++
         ["   </text>\n", "</page>\n"]))) = _
  rw [splitLines_mirror b r mids hb hr hm2]
  exact load_run_mirror b r mids hb hr hm1

/-- Claim C4 as stated is false: for the template page `Template:Foo` with
body lines `bar` and `baz` (the latter closed inline by `</text>`), the
first pass stores the body `["bar\n", "baz"]`, but re-running load_templates
on the mirror file's serialized form stores `["bar\n", "baz   "]` — the
mirror writes `   </text>` straight after `baz`, so the marker's indentation
leaks into the re-collected body, which is therefore not identical. -/
theorem claim_C4_counterexample :
    (load_templates true "Template" "Template:" "Module"
      ["<page>\n", "  <title>Template:Foo</title>\n",
       "  <text xml:space=\"preserve\">bar\n", "baz</text>\n", "</page>\n"]).map
      (fun st => st.store) = some [("Template:Foo", ["bar\n", "baz"])] ∧
    ((load_templates true "Template" "Template:" "Module"
      ["<page>\n", "  <title>Template:Foo</title>\n",
       "  <text xml:space=\"preserve\">bar\n", "baz</text>\n", "</page>\n"]).bind
      (fun st1 => load_templates false "Template" "Template:" "Module"
        (splitLines (joinAll st1.output)))).map (fun st => st.store) =
      some [("Template:Foo", ["bar\n", "baz   "])] ∧
    (["bar\n", "baz   "] : List String) ≠ ["bar\n", "baz"] :=
  ⟨by decide, by decide, by decide⟩

theorem claim_C4_mirror_roundtrip_witness :
    load_templates true "Template" "Template:" "Module"
      (origPage "bar" "baz" ["mid\n"]) =
      some (pass1State "bar" "baz" ["mid\n"]) ∧
    (pass1State "bar" "baz" ["mid\n"]).store =
      [("Template:Foo", ("bar" ++ "\n") :: (["mid\n"] ++ ["baz"]))] ∧
    load_templates false "Template" "Template:" "Module"
      (splitLines (joinAll (pass1State "bar" "baz" ["mid\n"]).output)) =
      some (pass2State "bar" "baz" ["mid\n"]) ∧
    (pass2State "bar" "baz" ["mid\n"]).store =
      [("Template:Foo", ("bar" ++ "\n") :: (["mid\n"] ++ ["baz" ++ "   "]))] :=
  claim_C4_mirror_roundtrip "bar" "baz" ["mid\n"]
    (by unfold goodChars; decide) (by unfold goodChars; decide) (by decide)
    (fun x hx => by
      simp only [List.mem_singleton] at hx
      subst hx
      exact ⟨"mid", rfl, by unfold goodChars; decide⟩)

end WikiExtractor
